import Mathlib

/-!
# Verification of the Ghost-worker detection system core

A shallow embedding, in Lean 4, of the algorithmic core of the
biometric duplicate/fraud detection engine:

* `utils/biometric_matcher.py` — name similarity (Levenshtein),
  biometric template similarity, population-wide duplicate detection,
  one-to-one biometric verification;
* `utils/fraud_detection.py` — ghost-worker detection, duplicate-claim
  timing, unusual attendance patterns, additive risk fusion;
* the registration-time alert filter of `app.py` (`register_employee`).

Modelling conventions:

* Python floats are idealised as exact rationals (`ℚ`); the one place
  where an irrational value arises (the Euclidean distance of the
  facial-encoding path, `np.linalg.norm`) is modelled over `ℝ` with
  `Real.sqrt`.
* Python `datetime` values are modelled as integer UTC timestamps in
  seconds; `timedelta(days = d)` is `d * 86400`, and the `.days`
  attribute of a difference is flooring division by 86400 (`Int.fdiv`),
  matching Python's floor semantics.
* Optional / nullable Python values are `Option`; Python truthiness of
  an optional string (`None` and `""` are falsy) is the `truthy`
  predicate below.
* `list.sort` / `sorted` (stable sorts) are modelled by
  `List.insertionSort`, which is likewise stable, with the matching
  relation (`key` descending for `reverse=True`).
* The global `FACE_RECOGNITION_AVAILABLE` flag is an explicit `Bool`
  parameter.
-/

/-! ## Name similarity (`calculate_name_similarity`) -/

/-- Python `str.strip()` on a list of characters: drop whitespace from
both ends. -/
def stripChars (cs : List Char) : List Char :=
  ((cs.dropWhile Char.isWhitespace).reverse.dropWhile Char.isWhitespace).reverse

/-- `name.lower().strip()`, the normalisation both arguments of
`calculate_name_similarity` undergo, as a list of characters. -/
def normalizeName (s : String) : List Char :=
  stripChars (s.toList.map Char.toLower)

/-- One row update of the Levenshtein dynamic-programming matrix:
given the character `x` of the first string, the remaining characters
of the second string, the diagonal entry, the rest of the previous row
and the entry just computed to the left, produce the rest of the
current row.  This is the inner `for j` loop of the matrix build. -/
def levRowAux (x : Char) : List Char → Nat → List Nat → Nat → List Nat
  | [], _, _, _ => []
  | _ :: _, _, [], _ => []
  | y :: ys, diag, up :: rest, left =>
    let cost := if x = y then 0 else 1
    let v := min (up + 1) (min (left + 1) (diag + cost))
    v :: levRowAux x ys up rest v

/-- The full current row (index `i`) of the Levenshtein matrix from the
previous row, mirroring the `for i` loop body. -/
def levRow (x : Char) (ys : List Char) (prev : List Nat) (i : Nat) : List Nat :=
  match prev with
  | [] => [i]
  | diag :: rest => i :: levRowAux x ys diag rest i

/-- Levenshtein distance via the row-by-row dynamic-programming matrix
of `calculate_name_similarity` (`matrix[i][j]` loops); the result is
the bottom-right entry `matrix[len1][len2]`. -/
def levenshteinDistance (xs ys : List Char) : Nat :=
  let row0 := List.range (ys.length + 1)
  let final := xs.foldl (fun st x => (levRow x ys st.1 (st.2 + 1), st.2 + 1)) (row0, 0)
  (final.1.getLast?).getD 0

/-- `calculate_name_similarity(name1, name2)`: lowercase and strip both
names; equal strings score 100; if either is then empty score 0;
otherwise `((max_len - distance) / max_len) * 100` with the Levenshtein
distance. -/
def calculate_name_similarity (name1 name2 : String) : ℚ :=
  let n1 := normalizeName name1
  let n2 := normalizeName name2
  if n1 = n2 then 100
  else
    let len1 := n1.length
    let len2 := n2.length
    if len1 = 0 ∨ len2 = 0 then 0
    else
      let distance := levenshteinDistance n1 n2
      let max_len := max len1 len2
      ((max_len : ℚ) - (distance : ℚ)) / (max_len : ℚ) * 100

/-! ## Biometric template similarity (`calculate_image_similarity`)

The facial path runs `np.array(json.loads(template))` on each side and
compares the resulting numpy arrays.  `parseTemplate` models the
inputs on which that pipeline produces a numeric ndarray: arbitrarily
nested, rectangular JSON arrays of numbers — parsed into a numpy-style
shape plus the row-major flat data — or a bare JSON number (a 0-d
array).  Anything else makes the pipeline raise (`json.loads` fails;
`np.array` rejects ragged nesting; subtraction rejects string, boolean,
null or mixed elements), which the code's `except` maps to similarity
0.  `np.linalg.norm` of an n-d array without `ord` is the norm of the
flattened data, and `enc1 - enc2` follows numpy's general broadcasting
rules, both modelled below. -/

/-- Python truthiness of an optional string: `None` and `""` are falsy. -/
def truthy : Option String → Bool
  | none => false
  | some s => !(s == "")

/-- JSON whitespace skip. -/
def skipWs (cs : List Char) : List Char :=
  cs.dropWhile (fun c => c == ' ' || c == '\t' || c == '\n' || c == '\r')

/-- Decimal digits to a natural number. -/
def digitsToNat (ds : List Char) : Nat :=
  ds.foldl (fun a c => a * 10 + (c.toNat - 48)) 0

/-- Optional JSON fraction part `.digits`; returns 0 when absent. -/
def parseFrac : List Char → Option (ℚ × List Char)
  | '.' :: t =>
    let fp := t.takeWhile Char.isDigit
    if fp = [] then none
    else some ((digitsToNat fp : ℚ) / (10 : ℚ) ^ fp.length, t.dropWhile Char.isDigit)
  | cs => some (0, cs)

/-- Optional JSON exponent part `e[+-]digits`; returns 0 when absent. -/
def parseExp : List Char → Option (Int × List Char)
  | c :: t =>
    if c = 'e' ∨ c = 'E' then
      let (sgn, t1) : Int × List Char :=
        match t with
        | '+' :: u => (1, u)
        | '-' :: u => (-1, u)
        | _ => (1, t)
      let ds := t1.takeWhile Char.isDigit
      if ds = [] then none
      else some (sgn * (digitsToNat ds : Int), t1.dropWhile Char.isDigit)
    else some (0, c :: t)
  | [] => some (0, [])

/-- A JSON number: `-`? int-part frac? exp?, with JSON's no-leading-zero
rule on the integer part. -/
def parseNum (cs : List Char) : Option (ℚ × List Char) :=
  let (neg, cs1) : Bool × List Char :=
    match cs with
    | '-' :: t => (true, t)
    | _ => (false, cs)
  let ip := cs1.takeWhile Char.isDigit
  if ip = [] then none
  else if 1 < ip.length ∧ ip.head? = some '0' then none
  else
    match parseFrac (cs1.dropWhile Char.isDigit) with
    | none => none
    | some (f, cs3) =>
      match parseExp cs3 with
      | none => none
      | some (e, cs4) =>
        let mag := ((digitsToNat ip : ℚ) + f) * (10 : ℚ) ^ e
        some (if neg then -mag else mag, cs4)

/-- One step of the nested-array parser.  The machine keeps a stack of
open-array frames — each recording the common shape of the elements
seen so far (`none` before the first element) and their count — an
accumulator of the numbers in textual order (which is exactly numpy's
row-major order), and a flag saying whether a comma or closing bracket
is expected next.  Rectangularity is enforced frame by frame, as
`np.array` enforces it; a violation (ragged or mixed content) yields
`none`, the error path.  `fuel` bounds the iteration and is
instantiated with the input length, which is ample since every step
consumes at least one character. -/
def parseNestedAux :
    Nat → List Char → List (Option (List Nat) × Nat) → Bool → List ℚ →
    Option (List Nat × List ℚ)
  | 0, _, _, _, _ => none
  | fuel + 1, cs, stack, expectComma, acc =>
    match skipWs cs with
    | '[' :: rest =>
      if expectComma then none
      else parseNestedAux fuel rest ((none, 0) :: stack) false acc
    | ']' :: rest =>
      match stack with
      | [] => none
      | (eshape, count) :: stack1 =>
        if expectComma = false ∧ count ≠ 0 then none
        else
          let myShape := count :: eshape.getD []
          match stack1 with
          | [] => if skipWs rest = [] then some (myShape, acc.reverse) else none
          | (pshape, pcount) :: stack2 =>
            match pshape with
            | none => parseNestedAux fuel rest ((some myShape, pcount + 1) :: stack2) true acc
            | some ps =>
              if ps = myShape then
                parseNestedAux fuel rest ((some ps, pcount + 1) :: stack2) true acc
              else none
    | ',' :: rest =>
      match stack with
      | [] => none
      | frame :: stack1 =>
        if expectComma then parseNestedAux fuel rest (frame :: stack1) false acc else none
    | cs1 =>
      if expectComma then none
      else
        match stack with
        | [] => none
        | (eshape, count) :: stack1 =>
          match parseNum cs1 with
          | none => none
          | some (q, rest) =>
            match eshape with
            | none => parseNestedAux fuel rest ((some [], count + 1) :: stack1) true (q :: acc)
            | some [] => parseNestedAux fuel rest ((some [], count + 1) :: stack1) true (q :: acc)
            | some (_ :: _) => none

/-- `np.array(json.loads(s))` on the inputs where it yields a numeric
ndarray: a nested rectangular JSON array of numbers gives its shape
and row-major flat data; a bare JSON number gives a 0-d array (shape
`[]`).  Everything else — invalid JSON, ragged nesting, non-numeric
elements — is the error path (`none`), which the caller maps to
similarity 0. -/
def parseTemplate (s : String) : Option (List Nat × List ℚ) :=
  let cs := skipWs s.toList
  match cs with
  | '[' :: _ => parseNestedAux (cs.length + 1) cs [] false []
  | _ =>
    match parseNum cs with
    | some (q, rest) => if skipWs rest = [] then some ([], [q]) else none
    | none => none

/-- The templates this system itself produces are 1-dimensional facial
encodings (`json.dumps(encoding.tolist())`).  `parseVec` is the
restriction of `parseTemplate` to that shape — a 1-d array, or a bare
number (a numpy 0-d scalar, numerically a one-element vector) —
returning the flat data; it is the form in which the vector-path
theorems quantify over parsed templates. -/
def parseVec (s : String) : Option (List ℚ) :=
  match parseTemplate s with
  | some ([], d) => if d.length = 1 then some d else none
  | some ([n], d) => if d.length = n then some d else none
  | _ => none

/-- Left-pad a shape with 1s to rank `k` (numpy's right-alignment of
shapes before broadcasting). -/
def padShape (k : Nat) (s : List Nat) : List Nat :=
  List.replicate (k - s.length) 1 ++ s

/-- numpy broadcasting of two equal-rank shapes: dimensions must be
equal or one of them 1; the result takes the larger; otherwise the
subtraction raises (`none`, the error path). -/
def broadcastShape : List Nat → List Nat → Option (List Nat)
  | [], [] => some []
  | a :: s1, b :: s2 =>
    (match broadcastShape s1 s2 with
     | none => none
     | some r =>
       if a = b then some (a :: r)
       else if a = 1 then some (b :: r)
       else if b = 1 then some (a :: r)
       else none)
  | _, _ => none

/-- Row-major multi-index of flat position `j` in a given shape. -/
def multiIdx : List Nat → Nat → List Nat
  | [], _ => []
  | _ :: ds, j => (j / ds.prod) :: multiIdx ds (j % ds.prod)

/-- Row-major flat position of a multi-index in a source shape, with
size-1 dimensions pinned to 0 (how numpy reads a broadcast operand). -/
def srcIdx : List Nat → List Nat → Nat
  | [], _ => 0
  | _, [] => 0
  | d :: ds, i :: is => (if d = 1 then 0 else i) * ds.prod + srcIdx ds is

/-- `enc1 - enc2` under numpy's general broadcasting: pad both shapes
to equal rank, broadcast them, and subtract element by element over
the flattened result; incompatible shapes raise, which the caller's
`except` turns into similarity 0 (modelled as `none`). -/
def broadcastDiff (s1 : List Nat) (d1 : List ℚ) (s2 : List Nat) (d2 : List ℚ) :
    Option (List ℚ) :=
  let k := max s1.length s2.length
  let p1 := padShape k s1
  let p2 := padShape k s2
  match broadcastShape p1 p2 with
  | none => none
  | some rs =>
    some ((List.range rs.prod).map (fun j =>
      d1.getD (srcIdx p1 (multiIdx rs j)) 0 - d2.getD (srcIdx p2 (multiIdx rs j)) 0))

/-- Sum of squares of the flattened data: the square of
`np.linalg.norm`, which flattens an n-d array when no `ord` is
given. -/
def sumSq (d : List ℚ) : ℚ :=
  (d.map (fun x => x * x)).sum

/-- Euclidean distance between two equal-length parsed templates
(`np.linalg.norm(enc1 - enc2)`). -/
noncomputable def euclideanDist (v1 v2 : List ℚ) : ℝ :=
  Real.sqrt ((sumSq (List.zipWith (fun a b => a - b) v1 v2) : ℚ) : ℝ)

/-- `calculate_image_similarity(template1, template2)`: falsy template
on either side gives 0.  With the face-recognition library available,
parse both templates into numpy arrays and map the norm of their
(broadcast) difference to `max(0, (1 - distance) * 100)`; any failure
— bad JSON, ragged or non-numeric content, incompatible shapes —
gives 0 via the `except` arms.  Without the library, exact string
equality gives 100, anything else 0.  The function is total: "no
match" is always an ordinary return value, never an exception. -/
noncomputable def calculate_image_similarity (face_recognition_available : Bool)
    (template1 template2 : Option String) : ℝ :=
  if truthy template1 = false ∨ truthy template2 = false then 0
  else if face_recognition_available then
    match parseTemplate (template1.getD ""), parseTemplate (template2.getD "") with
    | some (s1, enc1), some (s2, enc2) =>
      match broadcastDiff s1 enc1 s2 enc2 with
      | some d => max 0 ((1 - Real.sqrt ((sumSq d : ℚ) : ℝ)) * 100)
      | none => 0
    | _, _ => 0
  else if template1 = template2 then 100 else 0

/-! ## Duplicate detection (`detect_duplicate`) and the registration
alert filter (`app.py`, `register_employee`) -/

/-- The fields of an employee record that `detect_duplicate` reads
(both the candidate dict and the rows of the existing population). -/
structure EmpRecord where
  id : Nat
  name : Option String
  national_id : Option String
  biometric_hash : Option String
deriving DecidableEq

/-- A reported duplicate candidate: the existing record, the fused
similarity score, and the names of the factors that hit. -/
structure DupCand where
  employee : EmpRecord
  similarity_score : ℝ
  matching_factors : List String

/-- National-ID factor: both sides truthy and exactly equal scores a
flat 100. -/
def national_id_factor (new_employee_data existing : EmpRecord) : List String × List ℚ :=
  if truthy new_employee_data.national_id = true ∧ truthy existing.national_id = true ∧
      new_employee_data.national_id = existing.national_id
  then (["national_id"], [100]) else ([], [])

/-- Name factor: both names truthy and name similarity strictly above
80 scores the similarity value itself. -/
def name_factor (new_employee_data existing : EmpRecord) : List String × List ℚ :=
  if truthy new_employee_data.name = true ∧ truthy existing.name = true ∧
      80 < calculate_name_similarity (new_employee_data.name.getD "") (existing.name.getD "")
  then (["name"], [calculate_name_similarity (new_employee_data.name.getD "") (existing.name.getD "")])
  else ([], [])

open Classical in
/-- Biometric factor: both templates truthy and image similarity
strictly above the mode threshold (85 with face recognition, 99 in
hash-fallback mode) scores the similarity value itself. -/
noncomputable def biometric_factor (face_recognition_available : Bool)
    (new_employee_data existing : EmpRecord) : List String × List ℝ :=
  let threshold : ℝ := if face_recognition_available then 85 else 99
  if truthy new_employee_data.biometric_hash = true ∧ truthy existing.biometric_hash = true ∧
      threshold < calculate_image_similarity face_recognition_available
        new_employee_data.biometric_hash existing.biometric_hash
  then (["facial_recognition"],
        [calculate_image_similarity face_recognition_available
          new_employee_data.biometric_hash existing.biometric_hash])
  else ([], [])

/-- The `matching_factors` and `scores` lists accumulated for one
existing record, in the order the three factor checks run. -/
noncomputable def factors_of (face_recognition_available : Bool)
    (new_employee_data existing : EmpRecord) : List String × List ℝ :=
  let f1 := national_id_factor new_employee_data existing
  let f2 := name_factor new_employee_data existing
  let f3 := biometric_factor face_recognition_available new_employee_data existing
  (f1.1 ++ f2.1 ++ f3.1,
   (f1.2.map (fun (q : ℚ) => (q : ℝ))) ++ (f2.2.map (fun (q : ℚ) => (q : ℝ))) ++ f3.2)

open Classical in
/-- `detect_duplicate(new_employee_data, existing_employees)`: for each
existing record collect the hit factors and scores; report it iff some
factor hit, with overall score the arithmetic mean of the hit scores;
sort the reports by score descending (`list.sort` is stable, modelled
by the stable `insertionSort`). -/
noncomputable def detect_duplicate (face_recognition_available : Bool)
    (new_employee_data : EmpRecord) (existing_employees : List EmpRecord) : List DupCand :=
  let duplicates := existing_employees.filterMap (fun existing =>
    let fs := factors_of face_recognition_available new_employee_data existing
    if fs.1 = [] then none
    else some { employee := existing
                similarity_score := fs.2.sum / (fs.2.length : ℝ)
                matching_factors := fs.1 })
  List.insertionSort (fun a b => b.similarity_score ≤ a.similarity_score) duplicates

open Classical in
/-- The registration-time policy of `register_employee`: keep (and
alert on) only the candidates whose overall score is strictly above
80. -/
noncomputable def registration_alert_filter (duplicates : List DupCand) : List DupCand :=
  duplicates.filter (fun dup => decide (80 < dup.similarity_score))

/-! ## One-to-one verification (`verify_biometric`) -/

/-- The fields of the submitted biometric payload. -/
structure SubmittedData where
  type : Option String
  hash : Option String
  photo_data : Option String
deriving DecidableEq

/-- The stored template record, as the dict `verify_biometric` reads. -/
structure StoredTemplate where
  hash : Option String
deriving DecidableEq

/-- `{'match': …, 'confidence': …}`. -/
structure MatchResult where
  «match» : Bool
  confidence : ℝ

open Classical in
/-- `verify_biometric(submitted_data, stored_template)`.  Fingerprint:
exact hash equality gives `{match: True, confidence: 95}`, anything
else `{match: False, confidence: 0}`.  Facial: re-encode the submitted
photo (the image pipeline `image_to_hash` is an external collaborator,
passed as a function) and compare against the stored hash at the mode
threshold, with the raw similarity as confidence; every fall-through
returns `{match: False, confidence: 0}`. -/
noncomputable def verify_biometric (image_to_hash : String → Option String)
    (face_recognition_available : Bool)
    (submitted_data : SubmittedData) (stored_template : StoredTemplate) : MatchResult :=
  if submitted_data.type = some "fingerprint" then
    if submitted_data.hash = stored_template.hash then ⟨true, 95⟩ else ⟨false, 0⟩
  else if submitted_data.type = some "facial" then
    if truthy submitted_data.photo_data = true ∧ truthy stored_template.hash = true then
      match image_to_hash (submitted_data.photo_data.getD "") with
      | some submitted_template =>
        if submitted_template ≠ "" then
          let similarity := calculate_image_similarity face_recognition_available
            (some submitted_template) stored_template.hash
          let threshold : ℝ := if face_recognition_available then 85 else 99
          ⟨decide (threshold < similarity), similarity⟩
        else ⟨false, 0⟩
      | none => ⟨false, 0⟩
    else ⟨false, 0⟩
  else ⟨false, 0⟩

/-! ## Fraud detection (`utils/fraud_detection.py`)

Record types carry exactly the fields the detectors read.  Timestamps
are UTC epoch seconds; `datetime.utcnow()` becomes the explicit `now`
parameter. -/

/-- Employee row fields read by the fraud detectors. -/
structure Employee where
  id : Nat
  status : String
  registration_date : Int
deriving DecidableEq

/-- Attendance row fields read by the fraud detectors.
`confidence_score` is a nullable float column. -/
structure AttendanceLog where
  employee_id : Nat
  check_in_time : Int
  confidence_score : Option ℚ
deriving DecidableEq

/-- Benefit-claim row fields read by the fraud detectors. -/
structure BenefitClaim where
  employee_id : Nat
  claim_date : Int
  verified_by_biometric : Bool
deriving DecidableEq

/-- Duplicate-alert row fields read by `analyze_employee_risk`. -/
structure DuplicateAlert where
  employee_id_1 : Nat
  employee_id_2 : Nat
  status : String
deriving DecidableEq

/-- `datetime.weekday()` of an epoch-seconds timestamp (0 = Monday …
6 = Sunday; 1970-01-01 was a Thursday, weekday 3). -/
def weekdayOf (t : Int) : Int :=
  (t.fdiv 86400 + 3).emod 7

/-- `datetime.hour` of an epoch-seconds timestamp. -/
def hourOf (t : Int) : Int :=
  (t.emod 86400).fdiv 3600

/-- Python `max(attendances, key=lambda x: x.check_in_time)` starting
from a first element: keeps the first element among ties, replacing
only on strictly larger keys. -/
def maxByCheckIn (best : AttendanceLog) (rest : List AttendanceLog) : AttendanceLog :=
  rest.foldl (fun b l => if l.check_in_time > b.check_in_time then l else b) best

/-- The most recent attendance of a list, `none` for the empty list. -/
def lastAttendance : List AttendanceLog → Option AttendanceLog
  | [] => none
  | a :: rest => some (maxByCheckIn a rest)

/-- One entry of the `detect_ghost_workers` result; the two reason
branches populate different dict keys, modelled as `Option` fields. -/
structure GhostWorker where
  employee : Employee
  reason : String
  days_since_registration : Option Int
  last_attendance : Option Int
  days_since_attendance : Option Int
deriving DecidableEq

/-- The per-employee body of the `detect_ghost_workers` loop: skip
non-active employees; for an active employee registered before the
cutoff, flag with "No attendance records" when it has no attendance
rows (the `attendance_map` lookup is the filter by employee id), or
with "No attendance in N days" when its most recent attendance
predates the cutoff. -/
def ghostEntryFor (now : Int) (days_threshold : Int) (attendance_logs : List AttendanceLog)
    (employee : Employee) : Option GhostWorker :=
  let cutoff_date := now - days_threshold * 86400
  if employee.status ≠ "active" then none
  else
    let attendances := attendance_logs.filter (fun l => l.employee_id == employee.id)
    if employee.registration_date < cutoff_date then
      match lastAttendance attendances with
      | none =>
        some { employee := employee
               reason := "No attendance records"
               days_since_registration := some ((now - employee.registration_date).fdiv 86400)
               last_attendance := none
               days_since_attendance := none }
      | some last =>
        if last.check_in_time < cutoff_date then
          some { employee := employee
                 reason := "No attendance in " ++ toString days_threshold ++ " days"
                 days_since_registration := none
                 last_attendance := some last.check_in_time
                 days_since_attendance := some ((now - last.check_in_time).fdiv 86400) }
        else none
    else none

/-- `detect_ghost_workers(employees, attendance_logs, days_threshold=30)`. -/
def detect_ghost_workers (now : Int) (employees : List Employee)
    (attendance_logs : List AttendanceLog) (days_threshold : Int) : List GhostWorker :=
  employees.filterMap (ghostEntryFor now days_threshold attendance_logs)

/-- One entry of the `detect_duplicate_claims` result. -/
structure SuspiciousClaim where
  employee_id : Nat
  claims : List BenefitClaim
  time_difference_hours : ℚ
  reason : String
deriving DecidableEq

/-- The iteration order of `claims_by_employee` (a `defaultdict`
filled in claim order): employee ids by first occurrence. -/
def claimGroupKeys (benefit_claims : List BenefitClaim) : List Nat :=
  benefit_claims.foldl (fun ks c => if c.employee_id ∈ ks then ks else ks ++ [c.employee_id]) []

/-- One employee's claims in claim order (the `defaultdict` group). -/
def claimsFor (benefit_claims : List BenefitClaim) (employee_id : Nat) : List BenefitClaim :=
  benefit_claims.filter (fun c => c.employee_id == employee_id)

/-- One employee's claims sorted ascending by claim date (`sorted` is
stable, modelled by the stable `insertionSort`). -/
def sortedClaimsFor (benefit_claims : List BenefitClaim) (employee_id : Nat) : List BenefitClaim :=
  List.insertionSort (fun a b => a.claim_date ≤ b.claim_date) (claimsFor benefit_claims employee_id)

/-- The `for i in range(len(claims) - 1)` loop body: flag every
adjacent pair of the sorted group whose gap in hours
(`total_seconds() / 3600`) is strictly below the window. -/
def adjacentFindings (time_window_hours : ℚ) (employee_id : Nat) :
    List BenefitClaim → List SuspiciousClaim
  | c1 :: c2 :: rest =>
    let hours_diff : ℚ := ((c2.claim_date - c1.claim_date : Int) : ℚ) / 3600
    (if hours_diff < time_window_hours then
      [{ employee_id := employee_id
         claims := [c1, c2]
         time_difference_hours := hours_diff
         reason := "Multiple claims within " ++ toString time_window_hours ++ " hours" }]
     else []) ++ adjacentFindings time_window_hours employee_id (c2 :: rest)
  | _ => []

/-- `detect_duplicate_claims(benefit_claims, time_window_hours=24)`:
group by employee, sort each group by date ascending, emit one finding
per adjacent pair closer than the window. -/
def detect_duplicate_claims (benefit_claims : List BenefitClaim)
    (time_window_hours : ℚ) : List SuspiciousClaim :=
  (claimGroupKeys benefit_claims).flatMap (fun employee_id =>
    adjacentFindings time_window_hours employee_id (sortedClaimsFor benefit_claims employee_id))

/-- One entry of the `detect_unusual_patterns` result. -/
structure UnusualPattern where
  type : String
  log : AttendanceLog
  reason : String
deriving DecidableEq

/-- Python truthiness of the nullable float `confidence_score`:
`None` and `0.0` are falsy. -/
def truthyConf : Option ℚ → Bool
  | none => false
  | some q => !(q == 0)

/-- The findings one attendance record contributes, in rule order:
weekend check-in (weekday ≥ 5), check-in before 5 AM, and — guarded by
`log.confidence_score and …`, so only for a truthy (present, nonzero)
score — confidence strictly below 70. -/
def patternsForLog (log : AttendanceLog) : List UnusualPattern :=
  (if weekdayOf log.check_in_time ≥ 5 then
    [{ type := "weekend_checkin", log := log, reason := "Check-in on weekend" }]
   else [])
  ++ (if hourOf log.check_in_time < 5 then
    [{ type := "unusual_hour", log := log
       reason := "Check-in at unusual hour: " ++ toString (hourOf log.check_in_time) ++ ":00" }]
   else [])
  ++ (if truthyConf log.confidence_score = true ∧ log.confidence_score.getD 0 < 70 then
    [{ type := "low_confidence", log := log
       reason := "Low verification confidence: " ++ toString (log.confidence_score.getD 0) ++ "%" }]
   else [])

/-- `detect_unusual_patterns(attendance_logs)`: the appends of the loop
body, record by record. -/
def detect_unusual_patterns (attendance_logs : List AttendanceLog) : List UnusualPattern :=
  attendance_logs.foldl (fun unusual_patterns log => unusual_patterns ++ patternsForLog log) []

/-- The result dict of `analyze_employee_risk`. -/
structure RiskResult where
  employee_id : Nat
  risk_score : Nat
  risk_level : String
  risk_factors : List String
deriving DecidableEq

/-- `analyze_employee_risk(employee, attendance_logs, benefit_claims,
duplicates)`: add 40 for at least one pending duplicate alert
involving the employee, 30 for an active employee with no attendance
more than 7 days after registration, 20 for any unverified benefit
claim, 10 for more than 5 claims; clamp to 100; map to a level. -/
def analyze_employee_risk (now : Int) (employee : Employee)
    (attendance_logs : List AttendanceLog) (benefit_claims : List BenefitClaim)
    (duplicates : List DuplicateAlert) : RiskResult :=
  let employee_duplicates := duplicates.filter
    (fun d => d.employee_id_1 == employee.id || d.employee_id_2 == employee.id)
  let pending_duplicates := employee_duplicates.filter (fun d => d.status == "pending")
  let dupHit := employee_duplicates ≠ [] ∧ pending_duplicates ≠ []
  let s1 : Nat := if dupHit then 40 else 0
  let f1 : List String :=
    if dupHit then [toString pending_duplicates.length ++ " pending duplicate alerts"] else []
  let employee_attendance := attendance_logs.filter (fun l => l.employee_id == employee.id)
  let days_since_reg := (now - employee.registration_date).fdiv 86400
  let attHit := employee_attendance.length = 0 ∧ employee.status = "active" ∧ 7 < days_since_reg
  let s2 : Nat := if attHit then 30 else 0
  let f2 : List String :=
    if attHit then ["No attendance in " ++ toString days_since_reg ++ " days"] else []
  let employee_claims := benefit_claims.filter (fun c => c.employee_id == employee.id)
  let unverified_claims := employee_claims.filter (fun c => !c.verified_by_biometric)
  let unvHit := 0 < unverified_claims.length
  let s3 : Nat := if unvHit then 20 else 0
  let f3 : List String :=
    if unvHit then [toString unverified_claims.length ++ " unverified benefit claims"] else []
  let manyHit := 5 < employee_claims.length
  let s4 : Nat := if manyHit then 10 else 0
  let f4 : List String :=
    if manyHit then ["High number of benefit claims (" ++ toString employee_claims.length ++ ")"]
    else []
  let risk_score := s1 + s2 + s3 + s4
  let risk_level :=
    if 70 ≤ risk_score then "critical"
    else if 40 ≤ risk_score then "high"
    else if 20 ≤ risk_score then "medium"
    else "low"
  { employee_id := employee.id
    risk_score := min 100 risk_score
    risk_level := risk_level
    risk_factors := f1 ++ f2 ++ f3 ++ f4 }

/-! ### Spec-side trigger predicates for risk fusion -/

/-- "At least one pending duplicate alert involves the subject". -/
def pendingDuplicateHit (employee : Employee) (duplicates : List DuplicateAlert) : Prop :=
  ∃ d ∈ duplicates,
    (d.employee_id_1 = employee.id ∨ d.employee_id_2 = employee.id) ∧ d.status = "pending"

instance (e : Employee) (ds : List DuplicateAlert) : Decidable (pendingDuplicateHit e ds) := by
  unfold pendingDuplicateHit
  infer_instance

/-- "Active, zero attendance records, more than 7 days since
registration". -/
def noAttendanceHit (now : Int) (employee : Employee)
    (attendance_logs : List AttendanceLog) : Prop :=
  (¬ ∃ l ∈ attendance_logs, l.employee_id = employee.id) ∧ employee.status = "active" ∧
    7 < (now - employee.registration_date).fdiv 86400

instance (now : Int) (e : Employee) (ls : List AttendanceLog) :
    Decidable (noAttendanceHit now e ls) := by
  unfold noAttendanceHit
  infer_instance

/-- "Some unverified benefit claim of the subject exists". -/
def unverifiedClaimHit (employee : Employee) (benefit_claims : List BenefitClaim) : Prop :=
  ∃ c ∈ benefit_claims, c.employee_id = employee.id ∧ c.verified_by_biometric = false

instance (e : Employee) (cs : List BenefitClaim) : Decidable (unverifiedClaimHit e cs) := by
  unfold unverifiedClaimHit
  infer_instance

/-- "More than 5 total claims of the subject". -/
def manyClaimsHit (employee : Employee) (benefit_claims : List BenefitClaim) : Prop :=
  5 < benefit_claims.countP (fun c => c.employee_id == employee.id)

instance (e : Employee) (cs : List BenefitClaim) : Decidable (manyClaimsHit e cs) := by
  unfold manyClaimsHit
  infer_instance

/-! ## Concrete records used by witnesses and counterexamples -/

/-- A registration candidate: national id `ID123`, name and template
unlike the existing record's. -/
def exampleCandidate : EmpRecord :=
  { id := 1, name := some "abc", national_id := some "ID123", biometric_hash := some "hash1" }

/-- An existing record sharing only the national id with
`exampleCandidate`. -/
def exampleExisting : EmpRecord :=
  { id := 2, name := some "xyz", national_id := some "ID123", biometric_hash := some "hash2" }

/-- An encoder stub for exercising the fingerprint branch of
`verify_biometric` (that branch never calls the encoder). -/
def nullEncoder : String → Option String := fun _ => none

/-- Benefit claims at hours 0, 23 and 46 for employee 1, and one at
hour 25. -/
def claimH0 : BenefitClaim := { employee_id := 1, claim_date := 0, verified_by_biometric := true }

/-- See `claimH0`. -/
def claimH23 : BenefitClaim :=
  { employee_id := 1, claim_date := 23 * 3600, verified_by_biometric := true }

/-- See `claimH0`. -/
def claimH25 : BenefitClaim :=
  { employee_id := 1, claim_date := 25 * 3600, verified_by_biometric := true }

/-- See `claimH0`. -/
def claimH46 : BenefitClaim :=
  { employee_id := 1, claim_date := 46 * 3600, verified_by_biometric := true }

/-- An attendance record on a Monday noon with confidence 0 — Python
treats the 0.0 as falsy in `log.confidence_score and …`. -/
def zeroConfidenceLog : AttendanceLog :=
  { employee_id := 1, check_in_time := 4 * 86400 + 12 * 3600, confidence_score := some 0 }

/-- An attendance record on a Saturday at 3 AM with confidence 50:
triggers all three unusual-pattern rules. -/
def saturdayLog : AttendanceLog :=
  { employee_id := 1, check_in_time := 2 * 86400 + 3 * 3600, confidence_score := some 50 }

/-- A subject for the risk-fusion witness: active, registered at epoch 0. -/
def riskEmployee : Employee := { id := 1, status := "active", registration_date := 0 }

/-- A pending duplicate alert involving `riskEmployee`. -/
def riskAlert : DuplicateAlert := { employee_id_1 := 1, employee_id_2 := 2, status := "pending" }

/-- Six claims of `riskEmployee`, the first unverified. -/
def sixClaims : List BenefitClaim :=
  [{ employee_id := 1, claim_date := 0, verified_by_biometric := false },
   { employee_id := 1, claim_date := 1, verified_by_biometric := true },
   { employee_id := 1, claim_date := 2, verified_by_biometric := true },
   { employee_id := 1, claim_date := 3, verified_by_biometric := true },
   { employee_id := 1, claim_date := 4, verified_by_biometric := true },
   { employee_id := 1, claim_date := 5, verified_by_biometric := true }]

/-- An active employee registered 40 days before the reference time
`100 * 86400` used in the ghost-worker witness. -/
def ghostEmployee40 : Employee := { id := 1, status := "active", registration_date := 60 * 86400 }

/-- An active employee registered only 5 days before the reference
time. -/
def freshEmployee5 : Employee := { id := 2, status := "active", registration_date := 95 * 86400 }

/-- The expected finding for the 23-hour pair `claimH0`/`claimH23`
under a 24-hour window. -/
def finding23 : SuspiciousClaim :=
  { employee_id := 1, claims := [claimH0, claimH23], time_difference_hours := 23,
    reason := "Multiple claims within 24 hours" }

/-- The expected duplicate report entry for the example pair. -/
noncomputable def exampleDup : DupCand :=
  { employee := exampleExisting, similarity_score := 100, matching_factors := ["national_id"] }

/-! ## C1 — name similarity on empty and identical names -/

/-- C1, counterexample: the claim says any pair with an
empty-after-trim side — including two empty strings — scores 0, but
`calculate_name_similarity` tests `name1 == name2` *before* the empty
check, so the pair of two empty strings scores 100. -/
theorem C1_counterexample_two_empty_names_score_100 :
    normalizeName "" = [] ∧ calculate_name_similarity "" "" = 100 ∧
      ¬ calculate_name_similarity "" "" = 0 := by
  refine ⟨rfl, by decide, by decide⟩

/-- C1, amended: if exactly one side is empty after lowercasing and
trimming (so the two normalised names differ), similarity is 0; a
string against itself always scores 100.  (Two empty-after-trim
strings score 100, not 0, because the equality check runs first.) -/
theorem C1_name_similarity_empty_and_self :
    (∀ name1 name2 : String, normalizeName name1 ≠ normalizeName name2 →
      normalizeName name1 = [] ∨ normalizeName name2 = [] →
      calculate_name_similarity name1 name2 = 0) ∧
    (∀ s : String, calculate_name_similarity s s = 100) := by
  constructor
  · intro name1 name2 hne hemp
    unfold calculate_name_similarity
    rw [if_neg hne, if_pos]
    rcases hemp with h | h
    · exact Or.inl (by simp [h])
    · exact Or.inr (by simp [h])
  · intro s
    unfold calculate_name_similarity
    simp

/-- C1, witness: `"" `vs `"ab"` (one empty side) scores 0 and
`"ab"` against itself scores 100, by the amended theorem. -/
theorem C1_witness_empty_vs_ab :
    calculate_name_similarity "" "ab" = 0 ∧ calculate_name_similarity "ab" "ab" = 100 :=
  ⟨C1_name_similarity_empty_and_self.1 "" "ab" (by decide) (Or.inl (by decide)),
   C1_name_similarity_empty_and_self.2 "ab"⟩

/-! ## Bridge lemmas: 1-d templates through the nested-array pipeline -/

/-- A `parseVec` success is a `parseTemplate` success of flat shape:
either a 0-d scalar (shape `[]`, one element) or a 1-d array whose
declared extent is the data length. -/
theorem parseVec_cases (s : String) (v : List ℚ) (h : parseVec s = some v) :
    ∃ sh, parseTemplate s = some (sh, v) ∧
      (sh = [] ∧ v.length = 1 ∨ sh = [v.length]) := by
  unfold parseVec at h
  split at h
  next d heq =>
    split_ifs at h with hd
    have hdv : d = v := Option.some_inj.mp h
    subst hdv
    exact ⟨[], heq, Or.inl ⟨rfl, hd⟩⟩
  next n d heq =>
    split_ifs at h with hd
    have hdv : d = v := Option.some_inj.mp h
    subst hdv
    rw [← hd] at heq
    exact ⟨_, heq, Or.inr rfl⟩
  next => exact Option.noConfusion h

/-- Reading two equal-length vectors off positionwise indices is their
elementwise difference. -/
theorem range_map_getD_sub (v1 v2 : List ℚ) (hlen : v1.length = v2.length) :
    (List.range v1.length).map (fun j => v1.getD j 0 - v2.getD j 0) =
      List.zipWith (fun a b : ℚ => a - b) v1 v2 := by
  induction v1 generalizing v2 with
  | nil =>
    cases v2 with
    | nil => rfl
    | cons b t2 => exact absurd hlen (by simp)
  | cons a t ih =>
    cases v2 with
    | nil => exact absurd hlen (by simp)
    | cons b t2 =>
      rw [List.length_cons, List.range_succ_eq_map, List.map_cons, List.map_map,
        List.zipWith_cons_cons]
      have hc : ((fun j => (a :: t).getD j 0 - (b :: t2).getD j 0) ∘ Nat.succ) =
          fun j => t.getD j 0 - t2.getD j 0 := by
        funext j
        simp [List.getD_cons_succ]
      rw [hc, ih t2 (by simpa using hlen)]
      rfl

/-- numpy's broadcast subtraction, restricted to the flat shapes that
`parseVec` accepts with equal data lengths, is exactly the elementwise
difference of the flat data. -/
theorem broadcastDiff_flat (v1 v2 : List ℚ) (sh1 sh2 : List Nat)
    (hc1 : sh1 = [] ∧ v1.length = 1 ∨ sh1 = [v1.length])
    (hc2 : sh2 = [] ∧ v2.length = 1 ∨ sh2 = [v2.length])
    (hlen : v1.length = v2.length) :
    broadcastDiff sh1 v1 sh2 v2 =
      some (List.zipWith (fun a b : ℚ => a - b) v1 v2) := by
  rcases hc1 with ⟨h1, hl1⟩ | h1
  · have hl2 : v2.length = 1 := by omega
    obtain ⟨a, ha⟩ := List.length_eq_one.mp hl1
    obtain ⟨b, hb⟩ := List.length_eq_one.mp hl2
    subst h1; subst ha; subst hb
    rcases hc2 with ⟨h2, -⟩ | h2
    · subst h2; rfl
    · subst h2; rfl
  · rcases hc2 with ⟨h2, hl2⟩ | h2
    · have hl1 : v1.length = 1 := by omega
      obtain ⟨a, ha⟩ := List.length_eq_one.mp hl1
      obtain ⟨b, hb⟩ := List.length_eq_one.mp hl2
      subst h2; subst ha; subst hb
      subst h1; rfl
    · subst h1; subst h2
      rw [← hlen]
      simp only [broadcastDiff, padShape, List.length_cons, List.length_nil,
        Nat.max_self, Nat.sub_self, List.replicate, List.nil_append]
      have hbs : broadcastShape [v1.length] [v1.length] = some [v1.length] := by
        simp [broadcastShape]
      rw [hbs]
      simp only [List.prod_cons, List.prod_nil, mul_one]
      have hfix : ∀ j ∈ List.range v1.length,
          v1.getD (srcIdx [v1.length] (multiIdx [v1.length] j)) 0 -
            v2.getD (srcIdx [v1.length] (multiIdx [v1.length] j)) 0 =
          v1.getD j 0 - v2.getD j 0 := by
        intro j hj
        have hidx : srcIdx [v1.length] (multiIdx [v1.length] j) = j := by
          simp only [multiIdx, srcIdx, List.prod_nil, Nat.div_one, mul_one, Nat.add_zero]
          split_ifs with h
          · rw [h, List.mem_range] at hj
            omega
          · rfl
        rw [hidx]
      rw [List.map_congr_left hfix, range_map_getD_sub v1 v2 hlen]

/-- In face-recognition mode, two templates that parse as equal-length
flat vectors are scored by the distance formula on those vectors. -/
theorem calculate_image_similarity_parseVec (s1 s2 : String) (v1 v2 : List ℚ)
    (h1 : parseVec s1 = some v1) (h2 : parseVec s2 = some v2)
    (hlen : v1.length = v2.length) :
    calculate_image_similarity true (some s1) (some s2) =
      max 0 ((1 - euclideanDist v1 v2) * 100) := by
  obtain ⟨sh1, hpt1, hc1⟩ := parseVec_cases s1 v1 h1
  obtain ⟨sh2, hpt2, hc2⟩ := parseVec_cases s2 v2 h2
  have hs1 : s1 ≠ "" := by
    intro he
    rw [he, show parseVec "" = none from by decide] at h1
    exact Option.noConfusion h1
  have hs2 : s2 ≠ "" := by
    intro he
    rw [he, show parseVec "" = none from by decide] at h2
    exact Option.noConfusion h2
  unfold calculate_image_similarity
  rw [if_neg (by simp [truthy, hs1, hs2])]
  simp only [Option.getD_some, hpt1, hpt2, if_pos rfl]
  rw [broadcastDiff_flat v1 v2 sh1 sh2 hc1 hc2 hlen]
  simp only [if_true]
  rfl

/-- Nested numeric JSON arrays are live inputs, not errors: the
template `"[[3]]"` parses to a 1×1 numpy array, and against itself the
Frobenius norm of the difference is 0, so the similarity is 100. -/
theorem image_sim_nested_identical :
    calculate_image_similarity true (some "[[3]]") (some "[[3]]") = 100 := by
  have hp : parseTemplate "[[3]]" = some ([1, 1], [3]) := by
    simp +decide [parseTemplate, parseNestedAux, parseNum, parseFrac, parseExp,
      skipWs, digitsToNat]
  have hbd : broadcastDiff [1, 1] [3] [1, 1] [3] = some [0] := by
    simp +decide [broadcastDiff, padShape, broadcastShape, multiIdx, srcIdx]
  unfold calculate_image_similarity
  rw [if_neg (by simp [truthy])]
  simp only [Option.getD_some, hp, if_pos rfl]
  rw [hbd]
  simp only [if_true]
  show max 0 ((1 - Real.sqrt ((sumSq [0] : ℚ) : ℝ)) * 100) = 100
  rw [show sumSq [0] = 0 from by norm_num [sumSq]]
  norm_num [Real.sqrt_zero]

/-! ## C8 — malformed or absent templates give similarity 0 -/

/-- C10: on a fingerprint submission `verify_biometric` returns exactly
`{match: True, confidence: 95}` when the submitted hash equals the
stored hash and exactly `{match: False, confidence: 0}` otherwise. -/
theorem C10_fingerprint_exact_hash_fixed_confidence :
    ∀ (image_to_hash : String → Option String) (face_recognition_available : Bool)
      (submitted_data : SubmittedData) (stored_template : StoredTemplate),
      submitted_data.type = some "fingerprint" →
      verify_biometric image_to_hash face_recognition_available submitted_data stored_template =
        if submitted_data.hash = stored_template.hash then ⟨true, 95⟩ else ⟨false, 0⟩ := by
  intro enc fa sub st h
  unfold verify_biometric
  rw [if_pos h]

/-- C10, witness: matching and non-matching fingerprint hashes. -/
theorem C10_witness_fingerprint :
    verify_biometric nullEncoder false
        { type := some "fingerprint", hash := some "h1", photo_data := none }
        { hash := some "h1" } = ⟨true, 95⟩ ∧
    verify_biometric nullEncoder false
        { type := some "fingerprint", hash := some "h1", photo_data := none }
        { hash := some "h2" } = ⟨false, 0⟩ := by
  constructor
  · rw [C10_fingerprint_exact_hash_fixed_confidence nullEncoder false _ _ rfl, if_pos rfl]
  · rw [C10_fingerprint_exact_hash_fixed_confidence nullEncoder false _ _ rfl,
      if_neg (by decide)]

/-! ## C9 — the vector-mode similarity formula -/

/-- C9: on parsed equal-length vector templates the similarity is
`max(0, (1 - EuclideanDistance) * 100)`; identical vectors give
exactly 100; distance at least 1 (equivalently, sum of squared
differences at least 1) gives exactly 0; the result is never
negative. -/
theorem C9_vector_similarity_formula :
    ∀ (s1 s2 : String) (v1 v2 : List ℚ),
      parseVec s1 = some v1 → parseVec s2 = some v2 → v1.length = v2.length →
      calculate_image_similarity true (some s1) (some s2) =
          max 0 ((1 - euclideanDist v1 v2) * 100) ∧
        (v1 = v2 → calculate_image_similarity true (some s1) (some s2) = 100) ∧
        (1 ≤ euclideanDist v1 v2 → calculate_image_similarity true (some s1) (some s2) = 0) ∧
        (1 ≤ sumSq (List.zipWith (fun a b => a - b) v1 v2) →
          calculate_image_similarity true (some s1) (some s2) = 0) ∧
        0 ≤ calculate_image_similarity true (some s1) (some s2) := by
  intro s1 s2 v1 v2 h1 h2 hlen
  have hmain : calculate_image_similarity true (some s1) (some s2) =
      max 0 ((1 - euclideanDist v1 v2) * 100) :=
    calculate_image_similarity_parseVec s1 s2 v1 v2 h1 h2 hlen
  refine ⟨hmain, ?_, ?_, ?_, ?_⟩
  · intro heq
    subst heq
    rw [hmain]
    unfold euclideanDist
    have hsq0 : sumSq (List.zipWith (fun a b : ℚ => a - b) v1 v1) = 0 := by
      unfold sumSq
      rw [List.zipWith_same, List.map_map]
      have hc : ((fun x : ℚ => x * x) ∘ fun a : ℚ => a - a) = fun _ : ℚ => (0 : ℚ) := by
        funext a
        simp
      rw [hc]
      induction v1 with
      | nil => rfl
      | cons a t ih => simp [ih]
    rw [hsq0]
    norm_num [Real.sqrt_zero]
  · intro hdist
    rw [hmain]
    have : (1 - euclideanDist v1 v2) * 100 ≤ 0 :=
      mul_nonpos_of_nonpos_of_nonneg (by linarith) (by norm_num)
    exact max_eq_left this
  · intro hsq
    rw [hmain]
    have h0 : (1:ℝ) ≤ ((sumSq (List.zipWith (fun a b => a - b) v1 v2) : ℚ) : ℝ) := by
      exact_mod_cast hsq
    have hd : 1 ≤ euclideanDist v1 v2 := by
      unfold euclideanDist
      rw [show (1:ℝ) = Real.sqrt 1 from (Real.sqrt_one).symm]
      exact Real.sqrt_le_sqrt h0
    have : (1 - euclideanDist v1 v2) * 100 ≤ 0 :=
      mul_nonpos_of_nonpos_of_nonneg (by linarith) (by norm_num)
    exact max_eq_left this
  · rw [hmain]
    exact le_max_left 0 _

/-- C9, witness: identical templates `[3]` score 100; templates `[3]`
and `[0]` (squared distance 9 ≥ 1) score 0; both values are
non-negative. -/
theorem C9_witness_identical_and_far :
    calculate_image_similarity true (some "[3]") (some "[3]") = 100 ∧
    calculate_image_similarity true (some "[3]") (some "[0]") = 0 := by
  have hp3 : parseVec "[3]" = some [3] := by
    simp +decide [parseVec, parseTemplate, parseNestedAux, parseNum, parseFrac, parseExp,
      skipWs, digitsToNat]
  have hp0 : parseVec "[0]" = some [0] := by
    simp +decide [parseVec, parseTemplate, parseNestedAux, parseNum, parseFrac, parseExp,
      skipWs, digitsToNat]
  constructor
  · exact (C9_vector_similarity_formula "[3]" "[3]" [3] [3] hp3 hp3 rfl).2.1 rfl
  · refine (C9_vector_similarity_formula "[3]" "[0]" [3] [0] hp3 hp0 rfl).2.2.2.1 ?_
    show (1:ℚ) ≤ sumSq (List.zipWith (fun a b => a - b) [3] [0])
    norm_num [sumSq]


/-! ## C5 — per-record unusual-pattern rules -/

/-- The loop of `detect_unusual_patterns` appends each record's
findings in order. -/
theorem detect_unusual_patterns_eq_flatMap (logs : List AttendanceLog) :
    detect_unusual_patterns logs = logs.flatMap patternsForLog := by
  have key : ∀ (ls : List AttendanceLog) (acc : List UnusualPattern),
      ls.foldl (fun unusual_patterns log => unusual_patterns ++ patternsForLog log) acc =
        acc ++ ls.flatMap patternsForLog := by
    intro ls
    induction ls with
    | nil => intro acc; simp
    | cons l t ih =>
      intro acc
      simp only [List.foldl_cons, List.flatMap_cons, ih, List.append_assoc]
  simpa using key logs []

/-- Every finding a record contributes carries that record. -/
theorem patternsForLog_log_eq (l : AttendanceLog) :
    ∀ p ∈ patternsForLog l, p.log = l := by
  intro p hp
  unfold patternsForLog at hp
  rcases List.mem_append.mp hp with hp' | hp'
  · rcases List.mem_append.mp hp' with h | h <;> split_ifs at h <;> simp_all
  · split_ifs at hp' <;> simp_all

/-- A record contributes one weekend finding iff its weekday is ≥ 5. -/
theorem countP_patternsForLog_weekend (l : AttendanceLog) :
    (patternsForLog l).countP (fun p => p.type == "weekend_checkin") =
      if weekdayOf l.check_in_time ≥ 5 then 1 else 0 := by
  unfold patternsForLog
  split_ifs <;> simp_all [List.countP_append, List.countP_cons]

/-- A record contributes one unusual-hour finding iff its hour is < 5. -/
theorem countP_patternsForLog_hour (l : AttendanceLog) :
    (patternsForLog l).countP (fun p => p.type == "unusual_hour") =
      if hourOf l.check_in_time < 5 then 1 else 0 := by
  unfold patternsForLog
  split_ifs <;> simp_all [List.countP_append, List.countP_cons]

/-- A record contributes one low-confidence finding iff its confidence
is truthy (present and nonzero) and < 70. -/
theorem countP_patternsForLog_lowconf (l : AttendanceLog) :
    (patternsForLog l).countP (fun p => p.type == "low_confidence") =
      if truthyConf l.confidence_score = true ∧ l.confidence_score.getD 0 < 70
      then 1 else 0 := by
  unfold patternsForLog
  split_ifs <;> simp_all [List.countP_append, List.countP_cons]

/-- Counting findings of one type across the per-record expansion. -/
theorem countP_flatMap_patterns (ty : String) (condProp : AttendanceLog → Prop)
    [DecidablePred condProp]
    (hper : ∀ l, (patternsForLog l).countP (fun p => p.type == ty) =
        if condProp l then 1 else 0) :
    ∀ logs : List AttendanceLog,
      (logs.flatMap patternsForLog).countP (fun p => p.type == ty) =
        logs.countP (fun l => decide (condProp l)) := by
  intro logs
  induction logs with
  | nil => simp
  | cons l t ih =>
    simp only [List.flatMap_cons, List.countP_append, ih, hper l, List.countP_cons]
    by_cases hc : condProp l
    · simp [hc]
      omega
    · simp [hc]

/-! ## C4 — additive risk fusion -/

/-- A Bool filter is nonempty iff some member satisfies it. -/
theorem filter_ne_nil_iff {α : Type} (p : α → Bool) (l : List α) :
    l.filter p ≠ [] ↔ ∃ a ∈ l, p a = true := by
  rw [Ne, List.filter_eq_nil_iff]
  push_neg
  simp

/-- The risk score of `analyze_employee_risk` is exactly the clamped
sum of the four triggered fixed weights. -/
theorem analyze_employee_risk_score_formula
    (now : Int) (employee : Employee) (attendance_logs : List AttendanceLog)
    (benefit_claims : List BenefitClaim) (duplicates : List DuplicateAlert) :
    (analyze_employee_risk now employee attendance_logs benefit_claims duplicates).risk_score =
      min 100
        ((if pendingDuplicateHit employee duplicates then 40 else 0) +
          (if noAttendanceHit now employee attendance_logs then 30 else 0) +
          (if unverifiedClaimHit employee benefit_claims then 20 else 0) +
          (if manyClaimsHit employee benefit_claims then 10 else 0)) := by
  unfold analyze_employee_risk pendingDuplicateHit noAttendanceHit unverifiedClaimHit manyClaimsHit
  simp only
  congr 1
  have h1 : (duplicates.filter
        (fun d => d.employee_id_1 == employee.id || d.employee_id_2 == employee.id) ≠ [] ∧
      (duplicates.filter
        (fun d => d.employee_id_1 == employee.id || d.employee_id_2 == employee.id)).filter
          (fun d => d.status == "pending") ≠ []) ↔
      ∃ d ∈ duplicates, (d.employee_id_1 = employee.id ∨ d.employee_id_2 = employee.id) ∧
        d.status = "pending" := by
    constructor
    · rintro ⟨-, hne⟩
      obtain ⟨d, hd⟩ := List.exists_mem_of_ne_nil _ hne
      rw [List.mem_filter, List.mem_filter] at hd
      refine ⟨d, hd.1.1, ?_, ?_⟩
      · have := hd.1.2
        simp only [Bool.or_eq_true, beq_iff_eq] at this
        exact this
      · have := hd.2
        simpa using this
    · rintro ⟨d, hd, hinv, hpend⟩
      have hmem : d ∈ (duplicates.filter
          (fun d => d.employee_id_1 == employee.id || d.employee_id_2 == employee.id)).filter
            (fun d => d.status == "pending") := by
        rw [List.mem_filter, List.mem_filter]
        refine ⟨⟨hd, ?_⟩, by simp [hpend]⟩
        simp only [Bool.or_eq_true, beq_iff_eq]
        exact hinv
      constructor
      · intro hnil
        rw [List.mem_filter, hnil] at hmem
        exact absurd hmem.1 (List.not_mem_nil d)
      · intro hnil
        rw [hnil] at hmem
        exact absurd hmem (List.not_mem_nil d)
  have h2 : ((attendance_logs.filter (fun l => l.employee_id == employee.id)).length = 0 ∧
      employee.status = "active" ∧ 7 < (now - employee.registration_date).fdiv 86400) ↔
      ((¬ ∃ l ∈ attendance_logs, l.employee_id = employee.id) ∧
        employee.status = "active" ∧ 7 < (now - employee.registration_date).fdiv 86400) := by
    constructor <;> rintro ⟨ha, hs, hd⟩ <;> refine ⟨?_, hs, hd⟩
    · rw [List.length_eq_zero, List.filter_eq_nil_iff] at ha
      rintro ⟨l, hl, heq⟩
      exact ha l hl (by simp [heq])
    · rw [List.length_eq_zero, List.filter_eq_nil_iff]
      intro l hl hbeq
      exact ha ⟨l, hl, by simpa using hbeq⟩
  have h3 : (0 < ((benefit_claims.filter (fun c => c.employee_id == employee.id)).filter
        (fun c => !c.verified_by_biometric)).length) ↔
      ∃ c ∈ benefit_claims, c.employee_id = employee.id ∧ c.verified_by_biometric = false := by
    rw [List.length_pos_iff_ne_nil, filter_ne_nil_iff]
    constructor
    · rintro ⟨c, hc, hb⟩
      rw [List.mem_filter] at hc
      exact ⟨c, hc.1, by simpa using hc.2, by simpa using hb⟩
    · rintro ⟨c, hc, hid, hver⟩
      exact ⟨c, List.mem_filter.mpr ⟨hc, by simp [hid]⟩, by simp [hver]⟩
  have h4 : (5 < (benefit_claims.filter (fun c => c.employee_id == employee.id)).length) ↔
      (5 < benefit_claims.countP (fun c => c.employee_id == employee.id)) := by
    rw [List.countP_eq_length_filter]
  rw [if_congr h1 rfl rfl, if_congr h2 rfl rfl, if_congr h3 rfl rfl, if_congr h4 rfl rfl]

/-- The risk level is determined by the (clamped) risk score through
the fixed cutoffs 70/40/20. -/
theorem analyze_employee_risk_level_eq
    (now : Int) (employee : Employee) (attendance_logs : List AttendanceLog)
    (benefit_claims : List BenefitClaim) (duplicates : List DuplicateAlert) :
    (analyze_employee_risk now employee attendance_logs benefit_claims duplicates).risk_level =
      (if 70 ≤ (analyze_employee_risk now employee attendance_logs benefit_claims
          duplicates).risk_score then "critical"
        else if 40 ≤ (analyze_employee_risk now employee attendance_logs benefit_claims
          duplicates).risk_score then "high"
        else if 20 ≤ (analyze_employee_risk now employee attendance_logs benefit_claims
          duplicates).risk_score then "medium"
        else "low") := by
  have cutoffs : ∀ a b c d : Nat, a ≤ 40 → b ≤ 30 → c ≤ 20 → d ≤ 10 →
      (if 70 ≤ a + b + c + d then "critical"
        else if 40 ≤ a + b + c + d then "high"
        else if 20 ≤ a + b + c + d then "medium"
        else "low") =
      (if 70 ≤ min 100 (a + b + c + d) then "critical"
        else if 40 ≤ min 100 (a + b + c + d) then "high"
        else if 20 ≤ min 100 (a + b + c + d) then "medium"
        else "low") := by
    intro a b c d ha hb hc hd
    have hmin : min 100 (a + b + c + d) = a + b + c + d := by omega
    rw [hmin]
  unfold analyze_employee_risk
  simp only
  exact cutoffs _ _ _ _ (by split_ifs <;> omega) (by split_ifs <;> omega)
    (by split_ifs <;> omega) (by split_ifs <;> omega)

/-- C4: the risk score equals the clamped sum of the triggered fixed
weights (+40 pending duplicate alert, +30 active with no attendance
after more than 7 days, +20 any unverified claim, +10 more than 5
claims); it never exceeds 100; the level is critical iff score ≥ 70,
high iff 40 ≤ score < 70, medium iff 20 ≤ score < 40, low iff
score < 20; and making more factors qualify never decreases the
score. -/
theorem C4_additive_risk_fusion :
    (∀ (now : Int) (employee : Employee) (attendance_logs : List AttendanceLog)
        (benefit_claims : List BenefitClaim) (duplicates : List DuplicateAlert),
      (analyze_employee_risk now employee attendance_logs benefit_claims
            duplicates).risk_score =
          min 100
            ((if pendingDuplicateHit employee duplicates then 40 else 0) +
              (if noAttendanceHit now employee attendance_logs then 30 else 0) +
              (if unverifiedClaimHit employee benefit_claims then 20 else 0) +
              (if manyClaimsHit employee benefit_claims then 10 else 0)) ∧
        (analyze_employee_risk now employee attendance_logs benefit_claims
            duplicates).risk_score ≤ 100 ∧
        ((analyze_employee_risk now employee attendance_logs benefit_claims
            duplicates).risk_level = "critical" ↔
          70 ≤ (analyze_employee_risk now employee attendance_logs benefit_claims
            duplicates).risk_score) ∧
        ((analyze_employee_risk now employee attendance_logs benefit_claims
            duplicates).risk_level = "high" ↔
          40 ≤ (analyze_employee_risk now employee attendance_logs benefit_claims
              duplicates).risk_score ∧
            (analyze_employee_risk now employee attendance_logs benefit_claims
              duplicates).risk_score < 70) ∧
        ((analyze_employee_risk now employee attendance_logs benefit_claims
            duplicates).risk_level = "medium" ↔
          20 ≤ (analyze_employee_risk now employee attendance_logs benefit_claims
              duplicates).risk_score ∧
            (analyze_employee_risk now employee attendance_logs benefit_claims
              duplicates).risk_score < 40) ∧
        ((analyze_employee_risk now employee attendance_logs benefit_claims
            duplicates).risk_level = "low" ↔
          (analyze_employee_risk now employee attendance_logs benefit_claims
            duplicates).risk_score < 20)) ∧
    (∀ (now now' : Int) (e e' : Employee) (logs logs' : List AttendanceLog)
        (claims claims' : List BenefitClaim) (dups dups' : List DuplicateAlert),
      (pendingDuplicateHit e dups → pendingDuplicateHit e' dups') →
      (noAttendanceHit now e logs → noAttendanceHit now' e' logs') →
      (unverifiedClaimHit e claims → unverifiedClaimHit e' claims') →
      (manyClaimsHit e claims → manyClaimsHit e' claims') →
      (analyze_employee_risk now e logs claims dups).risk_score ≤
        (analyze_employee_risk now' e' logs' claims' dups').risk_score) := by
  have hiff : ∀ (now : Int) (e : Employee) (logs : List AttendanceLog)
      (claims : List BenefitClaim) (dups : List DuplicateAlert),
      ((analyze_employee_risk now e logs claims dups).risk_level = "critical" ↔
        70 ≤ (analyze_employee_risk now e logs claims dups).risk_score) ∧
      ((analyze_employee_risk now e logs claims dups).risk_level = "high" ↔
        40 ≤ (analyze_employee_risk now e logs claims dups).risk_score ∧
          (analyze_employee_risk now e logs claims dups).risk_score < 70) ∧
      ((analyze_employee_risk now e logs claims dups).risk_level = "medium" ↔
        20 ≤ (analyze_employee_risk now e logs claims dups).risk_score ∧
          (analyze_employee_risk now e logs claims dups).risk_score < 40) ∧
      ((analyze_employee_risk now e logs claims dups).risk_level = "low" ↔
        (analyze_employee_risk now e logs claims dups).risk_score < 20) := by
    intro now e logs claims dups
    rw [analyze_employee_risk_level_eq]
    split_ifs with h1 h2 h3 <;>
      refine ⟨?_, ?_, ?_, ?_⟩ <;> simp +decide <;> omega
  refine ⟨?_, ?_⟩
  · intro now e logs claims dups
    refine ⟨analyze_employee_risk_score_formula now e logs claims dups, ?_,
      (hiff now e logs claims dups).1, (hiff now e logs claims dups).2.1,
      (hiff now e logs claims dups).2.2.1, (hiff now e logs claims dups).2.2.2⟩
    rw [analyze_employee_risk_score_formula]
    exact min_le_left 100 _
  · intro now now' e e' logs logs' claims claims' dups dups' h40 h30 h20 h10
    rw [analyze_employee_risk_score_formula, analyze_employee_risk_score_formula]
    have step : ∀ (P Q : Prop) [Decidable P] [Decidable Q] (w : Nat), (P → Q) →
        (if P then w else 0) ≤ (if Q then w else 0) := by
      intro P Q _ _ w himp
      by_cases hp : P
      · rw [if_pos hp, if_pos (himp hp)]
      · rw [if_neg hp]
        exact Nat.zero_le _
    refine min_le_min (le_refl 100) ?_
    have t1 := step _ _ 40 h40
    have t2 := step _ _ 30 h30
    have t3 := step _ _ 20 h20
    have t4 := step _ _ 10 h10
    omega

/-- C4, witness: a pending alert plus no attendance 10 days after
registration scores exactly 70 ("critical"); adding an unverified
claim and six total claims scores 100; the second configuration
dominates the first, so monotonicity applies. -/
theorem C4_witness_concrete_scores :
    (analyze_employee_risk (10 * 86400) riskEmployee [] [] [riskAlert]).risk_score = 70 ∧
    (analyze_employee_risk (10 * 86400) riskEmployee [] [] [riskAlert]).risk_level =
      "critical" ∧
    (analyze_employee_risk (10 * 86400) riskEmployee [] sixClaims [riskAlert]).risk_score =
      100 ∧
    (analyze_employee_risk (10 * 86400) riskEmployee [] [] [riskAlert]).risk_score ≤
      (analyze_employee_risk (10 * 86400) riskEmployee [] sixClaims [riskAlert]).risk_score := by
  obtain ⟨hf1, -, hcrit1, -⟩ :=
    C4_additive_risk_fusion.1 (10 * 86400) riskEmployee [] [] [riskAlert]
  obtain ⟨hf2, -⟩ :=
    C4_additive_risk_fusion.1 (10 * 86400) riskEmployee [] sixClaims [riskAlert]
  have h70 : (analyze_employee_risk (10 * 86400) riskEmployee [] [] [riskAlert]).risk_score =
      70 := by
    rw [hf1]
    decide
  have h100 : (analyze_employee_risk (10 * 86400) riskEmployee [] sixClaims
      [riskAlert]).risk_score = 100 := by
    rw [hf2]
    decide
  refine ⟨h70, hcrit1.mpr (by omega), h100, ?_⟩
  exact C4_additive_risk_fusion.2 (10 * 86400) (10 * 86400) riskEmployee riskEmployee [] []
    [] sixClaims [riskAlert] [riskAlert] (fun h => h) (fun h => h)
    (fun _ => by decide) (fun _ => by decide)

/-! ## C6 — ghost-worker detection -/

/-- `lastAttendance` is `none` exactly on the empty list. -/
theorem lastAttendance_eq_none_iff (l : List AttendanceLog) :
    lastAttendance l = none ↔ l = [] := by
  cases l <;> simp [lastAttendance]

/-- A ghost entry produced for an employee carries that employee. -/
theorem ghostEntryFor_employee (now days_threshold : Int) (logs : List AttendanceLog)
    (e : Employee) (g : GhostWorker) :
    ghostEntryFor now days_threshold logs e = some g → g.employee = e := by
  intro h
  simp only [ghostEntryFor] at h
  split_ifs at h with h1 h2
  · cases hl : lastAttendance (logs.filter (fun l => l.employee_id == e.id)) <;>
      simp only [hl] at h
    · cases h
      rfl
    · split_ifs at h
      cases h
      rfl

/-- `ghostEntryFor` produces an entry exactly under the flagging
conditions of the claim. -/
theorem ghostEntryFor_isSome_iff (now days_threshold : Int) (logs : List AttendanceLog)
    (e : Employee) :
    (∃ g, ghostEntryFor now days_threshold logs e = some g) ↔
      (e.status = "active" ∧ e.registration_date < now - days_threshold * 86400 ∧
        (logs.filter (fun l => l.employee_id == e.id) = [] ∨
          ∃ last, lastAttendance (logs.filter (fun l => l.employee_id == e.id)) = some last ∧
            last.check_in_time < now - days_threshold * 86400)) := by
  simp only [ghostEntryFor]
  by_cases h1 : e.status ≠ "active"
  · rw [if_pos h1]
    constructor
    · rintro ⟨g, hg⟩
      cases hg
    · rintro ⟨hs, -⟩
      exact absurd hs h1
  · rw [if_neg h1]
    rw [not_not] at h1
    by_cases h2 : e.registration_date < now - days_threshold * 86400
    · rw [if_pos h2]
      cases hl : lastAttendance (logs.filter (fun l => l.employee_id == e.id)) with
      | none =>
        simp only [hl]
        constructor
        · rintro -
          exact ⟨h1, h2, Or.inl ((lastAttendance_eq_none_iff _).mp hl)⟩
        · rintro -
          exact ⟨_, rfl⟩
      | some last =>
        simp only [hl]
        by_cases h3 : last.check_in_time < now - days_threshold * 86400
        · rw [if_pos h3]
          constructor
          · rintro -
            exact ⟨h1, h2, Or.inr ⟨last, rfl, h3⟩⟩
          · rintro -
            exact ⟨_, rfl⟩
        · rw [if_neg h3]
          constructor
          · rintro ⟨g, hg⟩
            cases hg
          · rintro ⟨-, -, hor⟩
            rcases hor with hnil | ⟨last', hl', hlt⟩
            · rw [(lastAttendance_eq_none_iff _).mpr hnil] at hl
              cases hl
            · cases hl'
              exact absurd hlt h3
    · rw [if_neg h2]
      constructor
      · rintro ⟨g, hg⟩
        cases hg
      · rintro ⟨-, hr, -⟩
        exact absurd hr h2

/-- C6: an entry is produced for a subject iff it is an active listed
employee registered before `now - days_threshold` whose attendance is
absent or whose most recent attendance predates the cutoff; the reason
is "No attendance records" in the first case and "No attendance in N
days" in the second.  Subjects registered within the window, and
non-active subjects, are never flagged. -/
theorem C6_ghost_worker_characterisation :
    (∀ (now : Int) (employees : List Employee) (attendance_logs : List AttendanceLog)
        (days_threshold : Int) (e : Employee),
      (∃ g ∈ detect_ghost_workers now employees attendance_logs days_threshold,
          g.employee = e) ↔
        (e ∈ employees ∧ e.status = "active" ∧
          e.registration_date < now - days_threshold * 86400 ∧
          (attendance_logs.filter (fun l => l.employee_id == e.id) = [] ∨
            ∃ last,
              lastAttendance (attendance_logs.filter (fun l => l.employee_id == e.id)) =
                some last ∧
              last.check_in_time < now - days_threshold * 86400))) ∧
    (∀ (now : Int) (employees : List Employee) (attendance_logs : List AttendanceLog)
        (days_threshold : Int) (g : GhostWorker),
      g ∈ detect_ghost_workers now employees attendance_logs days_threshold →
      (attendance_logs.filter (fun l => l.employee_id == g.employee.id) = [] →
          g.reason = "No attendance records") ∧
      (attendance_logs.filter (fun l => l.employee_id == g.employee.id) ≠ [] →
          g.reason = "No attendance in " ++ toString days_threshold ++ " days")) := by
  constructor
  · intro now employees attendance_logs days_threshold e
    constructor
    · rintro ⟨g, hg, heq⟩
      obtain ⟨e', he', hfe⟩ := List.mem_filterMap.mp hg
      have hee : e' = e := by
        rw [← heq]
        exact (ghostEntryFor_employee now days_threshold attendance_logs e' g hfe).symm
      subst hee
      obtain ⟨hs, hr, hc⟩ :=
        (ghostEntryFor_isSome_iff now days_threshold attendance_logs e').mp ⟨g, hfe⟩
      exact ⟨he', hs, hr, hc⟩
    · rintro ⟨hmem, hs, hr, hc⟩
      obtain ⟨g, hg⟩ :=
        (ghostEntryFor_isSome_iff now days_threshold attendance_logs e).mpr ⟨hs, hr, hc⟩
      exact ⟨g, List.mem_filterMap.mpr ⟨e, hmem, hg⟩,
        ghostEntryFor_employee now days_threshold attendance_logs e g hg⟩
  · intro now employees attendance_logs days_threshold g hg
    obtain ⟨e, he, hfe⟩ := List.mem_filterMap.mp hg
    have hemp := ghostEntryFor_employee now days_threshold attendance_logs e g hfe
    subst hemp
    simp only [ghostEntryFor] at hfe
    split_ifs at hfe with h1 h2
    · cases hl : lastAttendance (attendance_logs.filter
          (fun l => l.employee_id == g.employee.id)) <;> simp only [hl] at hfe
      · have hrec := Option.some_inj.mp hfe
        refine ⟨fun _ => ?_, fun hne => ?_⟩
        · exact (congrArg GhostWorker.reason hrec).symm
        · exact absurd ((lastAttendance_eq_none_iff _).mp hl) hne
      · split_ifs at hfe
        have hrec := Option.some_inj.mp hfe
        refine ⟨fun hnil => ?_, fun _ => ?_⟩
        · rw [(lastAttendance_eq_none_iff _).mpr hnil] at hl
          cases hl
        · exact (congrArg GhostWorker.reason hrec).symm

/-- C6, witness: with a 30-day threshold at time `100 * 86400` and no
attendance at all, the employee registered 40 days ago is flagged with
reason "No attendance records", while the one registered 5 days ago is
not flagged. -/
theorem C6_witness_40_days_flagged_5_days_not :
    (∃ g ∈ detect_ghost_workers (100 * 86400) [ghostEmployee40, freshEmployee5] [] 30,
        g.employee = ghostEmployee40 ∧ g.reason = "No attendance records") ∧
    ¬ (∃ g ∈ detect_ghost_workers (100 * 86400) [ghostEmployee40, freshEmployee5] [] 30,
        g.employee = freshEmployee5) := by
  obtain ⟨g, hg, hge⟩ :=
    (C6_ghost_worker_characterisation.1 (100 * 86400) [ghostEmployee40, freshEmployee5]
        [] 30 ghostEmployee40).mpr
      ⟨List.mem_cons_self ghostEmployee40 [freshEmployee5], rfl, by decide, Or.inl rfl⟩
  refine ⟨⟨g, hg, hge, ?_⟩, ?_⟩
  · exact (C6_ghost_worker_characterisation.2 (100 * 86400) [ghostEmployee40, freshEmployee5]
      [] 30 g hg).1 rfl
  · intro hex
    have hr := (C6_ghost_worker_characterisation.1 (100 * 86400)
      [ghostEmployee40, freshEmployee5] [] 30 freshEmployee5).mp hex
    exact absurd hr.2.2.1 (by decide)

/-! ## C7 — duplicate-claim timing -/

/-- Findings of one group carry that group's employee id. -/
theorem adjacentFindings_employee_id (w : ℚ) (eid : Nat) :
    ∀ (l : List BenefitClaim) (f : SuspiciousClaim),
      f ∈ adjacentFindings w eid l → f.employee_id = eid := by
  intro l
  induction l with
  | nil => intro f hf; cases hf
  | cons c1 t ih =>
    intro f hf
    cases t with
    | nil => cases hf
    | cons c2 rest =>
      simp only [adjacentFindings] at hf
      rcases List.mem_append.mp hf with hf' | hf'
      · split_ifs at hf'
        · rw [List.mem_singleton.mp hf']
        · cases hf'
      · exact ih f hf'

/-- Every finding comes from an adjacent pair of the group, closer
than the window, and reports that pair and its gap. -/
theorem adjacentFindings_sound (w : ℚ) (eid : Nat) :
    ∀ (l : List BenefitClaim) (f : SuspiciousClaim), f ∈ adjacentFindings w eid l →
      f.time_difference_hours < w ∧
      ∃ i c1 c2, l.get? i = some c1 ∧ l.get? (i + 1) = some c2 ∧
        f.claims = [c1, c2] ∧
        f.time_difference_hours = ((c2.claim_date - c1.claim_date : Int) : ℚ) / 3600 := by
  intro l
  induction l with
  | nil => intro f hf; cases hf
  | cons c1 t ih =>
    intro f hf
    cases t with
    | nil => cases hf
    | cons c2 rest =>
      simp only [adjacentFindings] at hf
      rcases List.mem_append.mp hf with hf' | hf'
      · split_ifs at hf' with hw
        · rw [List.mem_singleton.mp hf']
          exact ⟨hw, 0, c1, c2, rfl, rfl, rfl, rfl⟩
        · cases hf'
      · obtain ⟨hlt, i, d1, d2, h1, h2, hc, ht⟩ := ih f hf'
        exact ⟨hlt, i + 1, d1, d2, h1, h2, hc, ht⟩

/-- One finding per violating adjacent pair: the number of findings of
a group equals the number of adjacent pairs closer than the window. -/
theorem adjacentFindings_length (w : ℚ) (eid : Nat) :
    ∀ l : List BenefitClaim,
      (adjacentFindings w eid l).length =
        (l.zip l.tail).countP
          (fun p => decide (((p.2.claim_date - p.1.claim_date : Int) : ℚ) / 3600 < w)) := by
  intro l
  induction l with
  | nil => rfl
  | cons c1 t ih =>
    cases t with
    | nil => rfl
    | cons c2 rest =>
      simp only [adjacentFindings, List.length_append, ih, List.zip_cons_cons,
        List.tail_cons, List.countP_cons]
      by_cases hw : ((c2.claim_date - c1.claim_date : Int) : ℚ) / 3600 < w
      · rw [if_pos hw, if_pos (decide_eq_true hw)]
        simp only [List.length_cons, List.length_nil]
        omega
      · rw [if_neg hw, if_neg (by simpa using hw)]
        simp only [List.length_nil]
        omega

/-- The group keys are exactly the employee ids occurring among the
claims. -/
theorem mem_claimGroupKeys (benefit_claims : List BenefitClaim) (k : Nat) :
    k ∈ claimGroupKeys benefit_claims ↔ ∃ c ∈ benefit_claims, c.employee_id = k := by
  have aux : ∀ (cs : List BenefitClaim) (ks : List Nat),
      (k ∈ cs.foldl
          (fun ks c => if c.employee_id ∈ ks then ks else ks ++ [c.employee_id]) ks ↔
        k ∈ ks ∨ ∃ c ∈ cs, c.employee_id = k) := by
    intro cs
    induction cs with
    | nil => intro ks; simp
    | cons c t ih =>
      intro ks
      simp only [List.foldl_cons]
      rw [ih]
      by_cases hc : c.employee_id ∈ ks
      · rw [if_pos hc]
        constructor
        · rintro (hk | ht)
          · exact Or.inl hk
          · exact Or.inr (by simpa using Or.inr (by simpa using ht))
        · rintro (hk | hex)
          · exact Or.inl hk
          · rcases (by simpa using hex : c.employee_id = k ∨ ∃ c ∈ t, c.employee_id = k)
              with he | ht
            · exact Or.inl (he ▸ hc)
            · exact Or.inr ht
      · rw [if_neg hc]
        simp only [List.mem_append, List.mem_singleton]
        constructor
        · rintro ((hk | hk) | ht)
          · exact Or.inl hk
          · exact Or.inr ⟨c, by simp [hk.symm]⟩
          · exact Or.inr (by simpa using Or.inr (by simpa using ht))
        · rintro (hk | hex)
          · exact Or.inl (Or.inl hk)
          · rcases (by simpa using hex : c.employee_id = k ∨ ∃ c ∈ t, c.employee_id = k)
              with he | ht
            · exact Or.inl (Or.inr he.symm)
            · exact Or.inr ht
  have := aux benefit_claims []
  simpa [claimGroupKeys] using this

/-- The group keys list has no duplicates. -/
theorem claimGroupKeys_nodup (benefit_claims : List BenefitClaim) :
    (claimGroupKeys benefit_claims).Nodup := by
  have aux : ∀ (cs : List BenefitClaim) (ks : List Nat), ks.Nodup →
      (cs.foldl
        (fun ks c => if c.employee_id ∈ ks then ks else ks ++ [c.employee_id]) ks).Nodup := by
    intro cs
    induction cs with
    | nil => intro ks h; simpa using h
    | cons c t ih =>
      intro ks h
      simp only [List.foldl_cons]
      by_cases hc : c.employee_id ∈ ks
      · rw [if_pos hc]
        exact ih ks h
      · rw [if_neg hc]
        refine ih _ ?_
        simp [List.nodup_append, h, hc]
  exact aux benefit_claims [] List.nodup_nil

/-- The findings of the group of key `k`, filtered out of the full
result: exactly that group's adjacent-pair count. -/
theorem detect_duplicate_claims_count (benefit_claims : List BenefitClaim) (w : ℚ) (k : Nat) :
    ((detect_duplicate_claims benefit_claims w).filter (fun f => f.employee_id == k)).length =
      ((sortedClaimsFor benefit_claims k).zip (sortedClaimsFor benefit_claims k).tail).countP
        (fun p => decide (((p.2.claim_date - p.1.claim_date : Int) : ℚ) / 3600 < w)) := by
  unfold detect_duplicate_claims
  rw [List.filter_flatMap]
  have hgroup : ∀ k' : Nat,
      ((adjacentFindings w k' (sortedClaimsFor benefit_claims k')).filter
        (fun f => f.employee_id == k)) =
        if k' = k then adjacentFindings w k (sortedClaimsFor benefit_claims k) else [] := by
    intro k'
    by_cases hk : k' = k
    · subst hk
      rw [if_pos rfl, List.filter_eq_self]
      intro f hf
      simp [adjacentFindings_employee_id w k' _ f hf]
    · rw [if_neg hk, List.filter_eq_nil_iff]
      intro f hf
      simp [adjacentFindings_employee_id w k' _ f hf, hk]
  by_cases hmem : k ∈ claimGroupKeys benefit_claims
  · have key : ∀ (ks : List Nat), ks.Nodup → k ∈ ks →
        (ks.flatMap (fun k' =>
          (adjacentFindings w k' (sortedClaimsFor benefit_claims k')).filter
            (fun f => f.employee_id == k))).length =
          (adjacentFindings w k (sortedClaimsFor benefit_claims k)).length := by
      intro ks
      induction ks with
      | nil => intro _ h; cases h
      | cons a t ih =>
        intro hnd hk
        simp only [List.flatMap_cons, List.length_append]
        rcases List.mem_cons.mp hk with rfl | ht
        · rw [hgroup k, if_pos rfl]
          have hnotin : k ∉ t := (List.nodup_cons.mp hnd).1
          have hzero : (t.flatMap (fun k' =>
              (adjacentFindings w k' (sortedClaimsFor benefit_claims k')).filter
                (fun f => f.employee_id == k))).length = 0 := by
            rw [List.length_eq_zero, List.flatMap_eq_nil_iff]
            intro k' hk'
            rw [hgroup k', if_neg]
            intro he
            exact hnotin (he ▸ hk')
          omega
        · have hak : a ≠ k := by
            intro he
            exact (List.nodup_cons.mp hnd).1 (he ▸ ht)
          rw [hgroup a, if_neg hak]
          have := ih (List.nodup_cons.mp hnd).2 ht
          simpa using this
    rw [key (claimGroupKeys benefit_claims) (claimGroupKeys_nodup benefit_claims) hmem]
    exact adjacentFindings_length w k (sortedClaimsFor benefit_claims k)
  · have hnil : sortedClaimsFor benefit_claims k = [] := by
      unfold sortedClaimsFor claimsFor
      have : benefit_claims.filter (fun c => c.employee_id == k) = [] := by
        rw [List.filter_eq_nil_iff]
        intro c hc hbeq
        exact hmem ((mem_claimGroupKeys benefit_claims k).mpr ⟨c, hc, by simpa using hbeq⟩)
      rw [this]
      rfl
    rw [hnil]
    have hzero : ∀ k' ∈ claimGroupKeys benefit_claims,
        ((adjacentFindings w k' (sortedClaimsFor benefit_claims k')).filter
          (fun f => f.employee_id == k)) = [] := by
      intro k' hk'
      rw [hgroup k', if_neg]
      intro he
      exact hmem (he ▸ hk')
    rw [List.flatMap_eq_nil_iff.mpr hzero]
    rfl

/-- Two claims 23 hours apart are flagged under a 24-hour window, as a
single finding reporting the pair and the 23-hour gap. -/
theorem detect_duplicate_claims_23h :
    detect_duplicate_claims [claimH0, claimH23] 24 =
      [{ employee_id := 1, claims := [claimH0, claimH23], time_difference_hours := 23,
         reason := "Multiple claims within 24 hours" }] := by
  simp +decide [detect_duplicate_claims, claimGroupKeys, sortedClaimsFor, claimsFor,
    adjacentFindings, claimH0, claimH23]
  norm_num
  decide

/-- Two claims 25 hours apart are not flagged under a 24-hour window. -/
theorem detect_duplicate_claims_25h :
    detect_duplicate_claims [claimH0, claimH25] 24 = [] := by
  simp +decide [detect_duplicate_claims, claimGroupKeys, sortedClaimsFor, claimsFor,
    adjacentFindings, claimH0, claimH25]
  norm_num

/-- A chain of three claims, each adjacent pair 23 hours apart, yields
exactly two findings — one per adjacent pair, not merged. -/
theorem detect_duplicate_claims_chain :
    detect_duplicate_claims [claimH0, claimH23, claimH46] 24 =
      [{ employee_id := 1, claims := [claimH0, claimH23], time_difference_hours := 23,
         reason := "Multiple claims within 24 hours" },
       { employee_id := 1, claims := [claimH23, claimH46], time_difference_hours := 23,
         reason := "Multiple claims within 24 hours" }] := by
  simp +decide [detect_duplicate_claims, claimGroupKeys, sortedClaimsFor, claimsFor,
    adjacentFindings, claimH0, claimH23, claimH46]
  norm_num
  decide

/-- C7: findings come one per adjacent pair of the per-employee
date-sorted group whose gap is strictly under the window — each
finding reports such a pair and a gap below the window, and the number
of findings for an employee equals the number of violating adjacent
pairs (no transitive merging).  Concretely: claims 23 hours apart are
flagged under a 24-hour window, claims 25 hours apart are not, and a
23h/23h chain of three yields exactly two findings. -/
theorem C7_duplicate_claim_timing :
    (∀ (benefit_claims : List BenefitClaim) (w : ℚ) (f : SuspiciousClaim),
      f ∈ detect_duplicate_claims benefit_claims w →
      f.time_difference_hours < w ∧
      ∃ i c1 c2, (sortedClaimsFor benefit_claims f.employee_id).get? i = some c1 ∧
        (sortedClaimsFor benefit_claims f.employee_id).get? (i + 1) = some c2 ∧
        f.claims = [c1, c2] ∧
        f.time_difference_hours = ((c2.claim_date - c1.claim_date : Int) : ℚ) / 3600) ∧
    (∀ (benefit_claims : List BenefitClaim) (w : ℚ) (k : Nat),
      ((detect_duplicate_claims benefit_claims w).filter
          (fun f => f.employee_id == k)).length =
        ((sortedClaimsFor benefit_claims k).zip (sortedClaimsFor benefit_claims k).tail).countP
          (fun p => decide (((p.2.claim_date - p.1.claim_date : Int) : ℚ) / 3600 < w))) ∧
    detect_duplicate_claims [claimH0, claimH23] 24 =
      [{ employee_id := 1, claims := [claimH0, claimH23], time_difference_hours := 23,
         reason := "Multiple claims within 24 hours" }] ∧
    detect_duplicate_claims [claimH0, claimH25] 24 = [] ∧
    detect_duplicate_claims [claimH0, claimH23, claimH46] 24 =
      [{ employee_id := 1, claims := [claimH0, claimH23], time_difference_hours := 23,
         reason := "Multiple claims within 24 hours" },
       { employee_id := 1, claims := [claimH23, claimH46], time_difference_hours := 23,
         reason := "Multiple claims within 24 hours" }] := by
  refine ⟨?_, ?_, detect_duplicate_claims_23h, detect_duplicate_claims_25h,
    detect_duplicate_claims_chain⟩
  · intro benefit_claims w f hf
    unfold detect_duplicate_claims at hf
    obtain ⟨k, hk, hfk⟩ := List.mem_flatMap.mp hf
    have heid := adjacentFindings_employee_id w k _ f hfk
    obtain ⟨hlt, i, c1, c2, h1, h2, hc, ht⟩ := adjacentFindings_sound w k _ f hfk
    rw [heid]
    exact ⟨hlt, i, c1, c2, h1, h2, hc, ht⟩
  · exact detect_duplicate_claims_count

/-- C7, witness: the finding for the 23-hour pair has its gap below
the window, and the count of findings for employee 1 in that scenario
is exactly one. -/
theorem C7_witness_23h_finding :
    finding23.time_difference_hours < 24 ∧
    ((detect_duplicate_claims [claimH0, claimH23] 24).filter
        (fun f => f.employee_id == 1)).length = 1 := by
  constructor
  · have hmem : finding23 ∈ detect_duplicate_claims [claimH0, claimH23] 24 := by
      rw [C7_duplicate_claim_timing.2.2.1]
      exact List.mem_singleton.mpr rfl
    exact (C7_duplicate_claim_timing.1 [claimH0, claimH23] 24 finding23 hmem).1
  · rw [C7_duplicate_claim_timing.2.1 [claimH0, claimH23] 24 1]
    simp +decide [sortedClaimsFor, claimsFor, claimH0, claimH23]
    norm_num

/-! ## C2 and C3 — duplicate detection -/

/-- The mean of a nonempty list of reals all above 80 is above 80. -/
theorem sum_div_length_gt_80 (l : List ℝ) (hne : l ≠ []) (h : ∀ x ∈ l, (80:ℝ) < x) :
    (80:ℝ) < l.sum / (l.length : ℝ) := by
  have haux : ∀ m : List ℝ, (∀ x ∈ m, (80:ℝ) < x) → 80 * (m.length : ℝ) ≤ m.sum := by
    intro m
    induction m with
    | nil => intro _; simp
    | cons a t ih =>
      intro hm
      have ha := hm a (List.mem_cons_self a t)
      have ht := ih (fun x hx => hm x (List.mem_cons_of_mem a hx))
      simp only [List.length_cons, List.sum_cons]
      push_cast
      nlinarith
  have hlen : (0:ℝ) < (l.length : ℝ) := by
    have : 0 < l.length := List.length_pos.mpr hne
    exact_mod_cast this
  rw [lt_div_iff₀ hlen]
  obtain ⟨a, t, rfl⟩ := List.exists_cons_of_ne_nil hne
  have ha := h a (List.mem_cons_self a t)
  have ht := haux t (fun x hx => h x (List.mem_cons_of_mem a hx))
  simp only [List.length_cons, List.sum_cons]
  push_cast
  nlinarith

/-- The national-id factor yields names and scores in lockstep. -/
theorem national_id_factor_length (n e : EmpRecord) :
    (national_id_factor n e).1.length = (national_id_factor n e).2.length := by
  unfold national_id_factor
  split_ifs <;> rfl

/-- The name factor yields names and scores in lockstep. -/
theorem name_factor_length (n e : EmpRecord) :
    (name_factor n e).1.length = (name_factor n e).2.length := by
  unfold name_factor
  split_ifs <;> rfl

/-- The biometric factor yields names and scores in lockstep. -/
theorem biometric_factor_length (fa : Bool) (n e : EmpRecord) :
    (biometric_factor fa n e).1.length = (biometric_factor fa n e).2.length := by
  simp only [biometric_factor]
  cases fa
  · rw [if_neg (by decide : ¬((false : Bool) = true))]
    split_ifs <;> rfl
  · rw [if_pos (rfl : (true : Bool) = true)]
    split_ifs <;> rfl

/-- Factor names and factor scores are accumulated in lockstep. -/
theorem factors_of_length_eq (fa : Bool) (n e : EmpRecord) :
    (factors_of fa n e).1.length = (factors_of fa n e).2.length := by
  unfold factors_of
  simp [national_id_factor_length, name_factor_length, biometric_factor_length]

/-- Every accumulated factor score is strictly above 80 (national id
100, name above the 80 threshold, biometric above 85 or 99). -/
theorem factors_of_scores_gt (fa : Bool) (n e : EmpRecord) :
    ∀ x ∈ (factors_of fa n e).2, (80:ℝ) < x := by
  intro x hx
  unfold factors_of at hx
  simp only [List.mem_append, List.mem_map] at hx
  rcases hx with (⟨q, hq, rfl⟩ | ⟨q, hq, rfl⟩) | hq
  · unfold national_id_factor at hq
    split_ifs at hq
    · rw [List.mem_singleton.mp hq]
      norm_num
    · cases hq
  · unfold name_factor at hq
    split_ifs at hq with h
    · rw [List.mem_singleton.mp hq]
      exact_mod_cast h.2.2
    · cases hq
  · simp only [biometric_factor] at hq
    cases fa
    · rw [if_neg (by decide : ¬((false : Bool) = true))] at hq
      split_ifs at hq with h
      · rw [List.mem_singleton.mp hq]
        linarith [h.2.2]
      · simp at hq
    · rw [if_pos (rfl : (true : Bool) = true)] at hq
      split_ifs at hq with h
      · rw [List.mem_singleton.mp hq]
        linarith [h.2.2]
      · simp at hq

/-- Membership in the duplicate report: exactly the population records
with at least one hit factor, carrying the factor list and the mean of
the hit scores. -/
theorem mem_detect_duplicate_iff (fa : Bool) (n : EmpRecord) (pop : List EmpRecord)
    (dup : DupCand) :
    dup ∈ detect_duplicate fa n pop ↔
      ∃ e ∈ pop, (factors_of fa n e).1 ≠ [] ∧
        dup = { employee := e,
                similarity_score :=
                  (factors_of fa n e).2.sum / ((factors_of fa n e).2.length : ℝ),
                matching_factors := (factors_of fa n e).1 } := by
  unfold detect_duplicate
  rw [List.mem_insertionSort, List.mem_filterMap]
  constructor
  · rintro ⟨e, he, hfe⟩
    simp only at hfe
    by_cases hemp : (factors_of fa n e).1 = []
    · rw [if_pos hemp] at hfe
      cases hfe
    · rw [if_neg hemp] at hfe
      exact ⟨e, he, hemp, (Option.some_inj.mp hfe).symm⟩
  · rintro ⟨e, he, hne, rfl⟩
    refine ⟨e, he, ?_⟩
    simp only
    rw [if_neg hne]

/-- Completely different names score 0. -/
theorem name_sim_abc_xyz : calculate_name_similarity "abc" "xyz" = 0 := by
  have h1 : normalizeName "abc" = ['a', 'b', 'c'] := by decide
  have h2 : normalizeName "xyz" = ['x', 'y', 'z'] := by decide
  have h3 : levenshteinDistance ['a', 'b', 'c'] ['x', 'y', 'z'] = 3 := by decide
  simp only [calculate_name_similarity, h1, h2, h3]
  rw [if_neg (by decide), if_neg (by decide)]
  norm_num

/-- Different hashes score 0 in hash-fallback mode. -/
theorem image_sim_hash1_hash2 :
    calculate_image_similarity false (some "hash1") (some "hash2") = 0 := by
  unfold calculate_image_similarity
  rw [if_neg (by decide), if_neg (by decide : ¬((false : Bool) = true)),
    if_neg (by decide : ¬(some "hash1" = some "hash2"))]

/-- The factor evaluation of the example pair: only the national id
hits. -/
theorem factors_of_example :
    factors_of false exampleCandidate exampleExisting =
      (["national_id"], [((100 : ℚ) : ℝ)]) := by
  have hnat : national_id_factor exampleCandidate exampleExisting =
      (["national_id"], [100]) := by
    unfold national_id_factor
    rw [if_pos ⟨by decide, by decide, by decide⟩]
  have hname : name_factor exampleCandidate exampleExisting = ([], []) := by
    unfold name_factor
    rw [if_neg]
    rintro ⟨-, -, hc⟩
    rw [show exampleCandidate.name.getD "" = "abc" from rfl,
      show exampleExisting.name.getD "" = "xyz" from rfl, name_sim_abc_xyz] at hc
    exact absurd hc (by norm_num)
  have hbio : biometric_factor false exampleCandidate exampleExisting = ([], []) := by
    simp only [biometric_factor]
    rw [if_neg (by decide : ¬((false : Bool) = true)), if_neg]
    rintro ⟨-, -, hc⟩
    rw [show exampleCandidate.biometric_hash = some "hash1" from rfl,
      show exampleExisting.biometric_hash = some "hash2" from rfl,
      image_sim_hash1_hash2] at hc
    exact absurd hc (by norm_num)
  unfold factors_of
  rw [hnat, hname, hbio]
  simp

/-- The end-to-end example of C3: identical national ids, completely
different names and templates — reported with overall score exactly
100 on the single hit factor. -/
theorem detect_duplicate_example :
    detect_duplicate false exampleCandidate [exampleExisting] =
      [{ employee := exampleExisting, similarity_score := 100,
         matching_factors := ["national_id"] }] := by
  unfold detect_duplicate
  simp only [List.filterMap_cons, List.filterMap_nil, factors_of_example]
  norm_num

/-- The duplicate report is sorted by similarity score descending. -/
theorem detect_duplicate_sorted (fa : Bool) (n : EmpRecord) (pop : List EmpRecord) :
    List.Sorted (fun a b : DupCand => b.similarity_score ≤ a.similarity_score)
      (detect_duplicate fa n pop) := by
  unfold detect_duplicate
  haveI : IsTotal DupCand (fun a b => b.similarity_score ≤ a.similarity_score) :=
    ⟨fun a b => le_total b.similarity_score a.similarity_score⟩
  haveI : IsTrans DupCand (fun a b => b.similarity_score ≤ a.similarity_score) :=
    ⟨fun _ _ _ hab hbc => le_trans hbc hab⟩
  exact List.sorted_insertionSort _ _

/-- C2: every reported duplicate candidate has a nonempty
matching-factors list and overall score strictly above 80, so the
caller's registration-time filter (alert only when score > 80) keeps
every reported candidate. -/
theorem C2_reports_exceed_caller_threshold :
    (∀ (face_recognition_available : Bool) (new_employee_data : EmpRecord)
        (existing_employees : List EmpRecord) (dup : DupCand),
      dup ∈ detect_duplicate face_recognition_available new_employee_data existing_employees →
      dup.matching_factors ≠ [] ∧ (80 : ℝ) < dup.similarity_score) ∧
    (∀ (face_recognition_available : Bool) (new_employee_data : EmpRecord)
        (existing_employees : List EmpRecord),
      registration_alert_filter
          (detect_duplicate face_recognition_available new_employee_data
            existing_employees) =
        detect_duplicate face_recognition_available new_employee_data existing_employees) := by
  have main : ∀ (fa : Bool) (n : EmpRecord) (pop : List EmpRecord) (dup : DupCand),
      dup ∈ detect_duplicate fa n pop →
      dup.matching_factors ≠ [] ∧ (80 : ℝ) < dup.similarity_score := by
    intro fa n pop dup hdup
    obtain ⟨e, he, hne, rfl⟩ := (mem_detect_duplicate_iff fa n pop dup).mp hdup
    have hlen := factors_of_length_eq fa n e
    have hsne : (factors_of fa n e).2 ≠ [] := by
      intro h
      rw [h] at hlen
      exact hne (List.length_eq_zero.mp (by simpa using hlen))
    exact ⟨hne, sum_div_length_gt_80 _ hsne (factors_of_scores_gt fa n e)⟩
  refine ⟨main, ?_⟩
  intro fa n pop
  unfold registration_alert_filter
  rw [List.filter_eq_self]
  intro dup hdup
  exact decide_eq_true (main fa n pop dup hdup).2

/-- C2, witness: in the hash-fallback mode, the example candidate
sharing only a national id with the existing record is reported with
factors `["national_id"]` and score 100 > 80, and the caller filter
keeps the whole report. -/
theorem C2_witness_example_pair :
    exampleDup.matching_factors ≠ [] ∧ (80 : ℝ) < exampleDup.similarity_score ∧
    registration_alert_filter (detect_duplicate false exampleCandidate [exampleExisting]) =
      detect_duplicate false exampleCandidate [exampleExisting] := by
  have hmem : exampleDup ∈ detect_duplicate false exampleCandidate [exampleExisting] := by
    rw [detect_duplicate_example]
    exact List.mem_singleton.mpr rfl
  obtain ⟨h1, h2⟩ := C2_reports_exceed_caller_threshold.1 false exampleCandidate
    [exampleExisting] exampleDup hmem
  exact ⟨h1, h2, C2_reports_exceed_caller_threshold.2 false exampleCandidate [exampleExisting]⟩

/-- C3: a record is reported only when at least one factor hits; the
reported score is the unweighted arithmetic mean of the hit scores and
the factor list is the hit list; the report is sorted by score
descending; and the concrete equal-national-id, different-name,
different-template pair is reported at exactly 100. -/
theorem C3_mean_fusion_and_ranking :
    (∀ (face_recognition_available : Bool) (new_employee_data : EmpRecord)
        (existing_employees : List EmpRecord) (dup : DupCand),
      dup ∈ detect_duplicate face_recognition_available new_employee_data
          existing_employees →
      dup.employee ∈ existing_employees ∧
      (factors_of face_recognition_available new_employee_data dup.employee).1 ≠ [] ∧
      dup.matching_factors =
        (factors_of face_recognition_available new_employee_data dup.employee).1 ∧
      dup.similarity_score =
        (factors_of face_recognition_available new_employee_data dup.employee).2.sum /
          ((factors_of face_recognition_available new_employee_data
            dup.employee).2.length : ℝ)) ∧
    (∀ (face_recognition_available : Bool) (new_employee_data : EmpRecord)
        (existing_employees : List EmpRecord),
      List.Sorted (fun a b : DupCand => b.similarity_score ≤ a.similarity_score)
        (detect_duplicate face_recognition_available new_employee_data
          existing_employees)) ∧
    detect_duplicate false exampleCandidate [exampleExisting] =
      [{ employee := exampleExisting, similarity_score := 100,
         matching_factors := ["national_id"] }] := by
  refine ⟨?_, detect_duplicate_sorted, detect_duplicate_example⟩
  intro fa n pop dup hdup
  obtain ⟨e, he, hne, rfl⟩ := (mem_detect_duplicate_iff fa n pop dup).mp hdup
  exact ⟨he, hne, rfl, rfl⟩

/-- C3, witness: the example report's fields agree with the factor
evaluation and the singleton report is trivially sorted. -/
theorem C3_witness_example_pair :
    exampleDup.matching_factors = (factors_of false exampleCandidate exampleExisting).1 ∧
    List.Sorted (fun a b : DupCand => b.similarity_score ≤ a.similarity_score)
      (detect_duplicate false exampleCandidate [exampleExisting]) := by
  have hmem : exampleDup ∈ detect_duplicate false exampleCandidate [exampleExisting] := by
    rw [C3_mean_fusion_and_ranking.2.2]
    exact List.mem_singleton.mpr rfl
  obtain ⟨-, -, hfac, -⟩ := C3_mean_fusion_and_ranking.1 false exampleCandidate
    [exampleExisting] exampleDup hmem
  exact ⟨hfac, C3_mean_fusion_and_ranking.2.1 false exampleCandidate [exampleExisting]⟩

/-- C5, counterexample: an attendance record with confidence score 0 —
which is strictly below 70 — produces *no* finding at all, because
`log.confidence_score and …` treats the 0.0 as falsy; the claim
requires a low-confidence finding for every record scoring below
70. -/
theorem C5_counterexample_zero_confidence_not_flagged :
    zeroConfidenceLog.confidence_score = some 0 ∧ ((0 : ℚ) < 70) ∧
      detect_unusual_patterns [zeroConfidenceLog] = [] :=
  ⟨rfl, by decide, by decide⟩

/-- C5, amended: each record is evaluated independently against the
three rules, one finding per triggered rule — weekend (weekday ≥ 5),
early hour (< 5), low confidence — but the low-confidence rule fires
only when the score is truthy (present and nonzero) as well as
strictly below 70; a record with an absent or zero confidence score
yields no low-confidence finding. -/
theorem C5_unusual_patterns_per_rule :
    (∀ logs : List AttendanceLog,
      (detect_unusual_patterns logs).countP (fun p => p.type == "weekend_checkin") =
          logs.countP (fun l => decide (weekdayOf l.check_in_time ≥ 5)) ∧
      (detect_unusual_patterns logs).countP (fun p => p.type == "unusual_hour") =
          logs.countP (fun l => decide (hourOf l.check_in_time < 5)) ∧
      (detect_unusual_patterns logs).countP (fun p => p.type == "low_confidence") =
          logs.countP (fun l =>
            decide (truthyConf l.confidence_score = true ∧ l.confidence_score.getD 0 < 70))) ∧
    (∀ (logs : List AttendanceLog) (l : AttendanceLog), l ∈ logs →
      truthyConf l.confidence_score = true → l.confidence_score.getD 0 < 70 →
      ∃ p ∈ detect_unusual_patterns logs, p.log = l ∧ p.type = "low_confidence") ∧
    (∀ (logs : List AttendanceLog) (p : UnusualPattern),
      p ∈ detect_unusual_patterns logs → p.log ∈ logs) := by
  refine ⟨?_, ?_, ?_⟩
  · intro logs
    rw [detect_unusual_patterns_eq_flatMap]
    exact ⟨countP_flatMap_patterns "weekend_checkin" _ countP_patternsForLog_weekend logs,
      countP_flatMap_patterns "unusual_hour" _ countP_patternsForLog_hour logs,
      countP_flatMap_patterns "low_confidence" _ countP_patternsForLog_lowconf logs⟩
  · intro logs l hl hconf hlt
    rw [detect_unusual_patterns_eq_flatMap]
    have hpat : ({ type := "low_confidence", log := l, reason := "Low verification confidence: " ++ toString (l.confidence_score.getD 0) ++ "%" } : UnusualPattern) ∈ patternsForLog l := by
      unfold patternsForLog
      refine List.mem_append_right _ ?_
      rw [if_pos (show truthyConf l.confidence_score = true ∧
        l.confidence_score.getD 0 < 70 from ⟨hconf, hlt⟩)]
      exact List.mem_singleton.mpr rfl
    exact ⟨_, List.mem_flatMap.mpr ⟨l, hl, hpat⟩, rfl, rfl⟩
  · intro logs p hp
    rw [detect_unusual_patterns_eq_flatMap] at hp
    obtain ⟨l, hl, hpl⟩ := List.mem_flatMap.mp hp
    rw [patternsForLog_log_eq l p hpl]
    exact hl

/-- C5, witness: a Saturday 3 AM check-in with confidence 50 triggers
all three rules, one finding each, by the amended theorem. -/
theorem C5_witness_all_three_rules :
    (detect_unusual_patterns [saturdayLog]).countP
        (fun p => p.type == "weekend_checkin") = 1 ∧
    (detect_unusual_patterns [saturdayLog]).countP (fun p => p.type == "unusual_hour") = 1 ∧
    (detect_unusual_patterns [saturdayLog]).countP (fun p => p.type == "low_confidence") = 1 := by
  obtain ⟨h1, h2, h3⟩ := C5_unusual_patterns_per_rule.1 [saturdayLog]
  exact ⟨by rw [h1]; decide, by rw [h2]; decide, by rw [h3]; decide⟩
